import Mathlib

/-! cm -- Processing Cancelled and Failed Mandates

A shallow embedding of `cm.go`: the three sqlite tables, the four CRM lookups
issued by `processMandateEvents`, the per-event matching cascade with its
shared variables and `found` flag, the stage switch with the
"at your request" override, the rendering of a result row and the routing of
the row to one of the three result files.

Go strings are modelled by `String` (sequences of Unicode code points, i.e.
valid UTF-8 text). A result file is modelled by the list of the strings
passed to `WriteString`, in order; the file's content is their concatenation.
-/

namespace CancelledMandates

/-! ## Go standard library: `strings.TrimSpace`, `strings.Contains` -/

/-- White space as defined by Go's `unicode.IsSpace`: the Latin-1 spaces
`\t \n \v \f \r`, space, U+0085, U+00A0, and the code points with the Unicode
White_Space property (U+1680, U+2000..U+200A, U+2028, U+2029, U+202F, U+205F,
U+3000). -/
def isSpace (c : Char) : Bool :=
  c.toNat == 0x09 || c.toNat == 0x0A || c.toNat == 0x0B || c.toNat == 0x0C
    || c.toNat == 0x0D || c.toNat == 0x20 || c.toNat == 0x85 || c.toNat == 0xA0
    || c.toNat == 0x1680 || (0x2000 ≤ c.toNat && c.toNat ≤ 0x200A)
    || c.toNat == 0x2028 || c.toNat == 0x2029 || c.toNat == 0x202F
    || c.toNat == 0x205F || c.toNat == 0x3000

/-- Removal of leading and trailing white space from a list of characters. -/
def trimChars (l : List Char) : List Char :=
  (((l.dropWhile isSpace).reverse).dropWhile isSpace).reverse

/-- Go's `strings.TrimSpace`: the string without its leading and trailing
white space. -/
def TrimSpace (s : String) : String :=
  String.mk (trimChars s.data)

/-- Whether `sub` is a prefix of `s` (Go's `strings.HasPrefix` on characters). -/
def hasPrefix : List Char → List Char → Bool
  | _, [] => true
  | [], _ :: _ => false
  | c :: s, d :: sub => c == d && hasPrefix s sub

/-- Whether `sub` occurs in `s` at some position. -/
def containsChars : List Char → List Char → Bool
  | [], sub => hasPrefix [] sub
  | c :: s, sub => hasPrefix (c :: s) sub || containsChars s sub

/-- Go's `strings.Contains`: whether `substr` is within `s`. -/
def Contains (s substr : String) : Bool :=
  containsChars s.data substr.data

/-! ## The tables -/

/-- A row of table `mandateEvents` (32 text columns, primary key `id`). -/
structure MandateEvent where
  id : String
  created_at : String
  resource_type : String
  action : String
  details_origin : String
  details_cause : String
  details_description : String
  details_scheme : String
  details_reason_code : String
  links_previous_customer_bank_account : String
  links_new_customer_bank_account : String
  links_parent_event : String
  links_mandate : String
  mandates_id : String
  mandates_created_at : String
  mandates_reference : String
  mandates_status : String
  mandates_scheme : String
  mandates_next_possible_charge_date : String
  mandates_payments_require_approval : String
  mandates_links_customer_bank_account : String
  mandates_links_creditor : String
  customers_id : String
  customers_given_name : String
  customers_family_name : String
  customers_company_name : String
  customers_metadata_leadID : String
  customers_metadata_link : String
  customers_metadata_xero : String
  mandates_metadata_xero : String
  imported_at : String
  customers_name : String
deriving DecidableEq

/-- A row of table `elevateAccounts` (primary key `elevate_account_number`). -/
structure ElevateAccount where
  elevate_account_number : String
  elevate_mandate_reference : String
  elevate_customer_name : String
deriving DecidableEq

/-- A row of table `crmAccounts` (primary key `crm_id`). -/
structure CRMAccount where
  crm_id : String
  crm_account_number : String
  crm_name : String
  crm_email : String
  crm_premise_address : String
  crm_stage_name : String
  crm_gocardless_id : String
  crm_zen_user_id : String
deriving DecidableEq

/-! ## The CRM lookups -/

/-- The four `SELECT DISTINCT crm_account_number, crm_id, ... FROM ...`
statements built with `fmt.Sprintf` in `processMandateEvents`, each with the
key that is spliced into its `WHERE` clause. -/
inductive Query where
  /-- Method 1: `FROM crmAccounts WHERE (crm_id = key OR crm_account_number = key)`. -/
  | crmByIdOrAccountNumber (key : String)
  /-- Method 2: `FROM elevateAccounts INNER JOIN crmAccounts
  ON elevate_account_number = crm_account_number WHERE elevate_mandate_reference = key`. -/
  | crmByMandateReference (key : String)
  /-- Method 3: `FROM crmAccounts WHERE crm_gocardless_id = key`. -/
  | crmByGoCardlessId (key : String)
  /-- Method 4: `FROM crmAccounts WHERE crm_name = key`. -/
  | crmByName (key : String)
deriving DecidableEq

/-- The key that is spliced into the statement. -/
def Query.key : Query → String
  | .crmByIdOrAccountNumber key => key
  | .crmByMandateReference key => key
  | .crmByGoCardlessId key => key
  | .crmByName key => key

/-- What `db.Query(statement)` hands back: the rows, or an error. -/
abbrev DB := Query → Except String (List CRMAccount)

/-- A snapshot of the sqlite database. Each table is the list of its rows in
rowid order. The statements are built with `fmt.Sprintf`, the key between
double quotes and not escaped; `engine` is what sqlite answers to a statement
whose key it does not read as a string literal (see `literalKey`): such an
answer depends on the key as SQL text and is not derived from the tables
here. -/
structure Store where
  elevateAccounts : List ElevateAccount
  crmAccounts : List CRMAccount
  mandateEvents : List MandateEvent
  engine : DB

/-- The effect of `SELECT DISTINCT`: a row equal to an earlier row is dropped. -/
def distinct {α : Type} [DecidableEq α] : List α → List α
  | [] => []
  | a :: l => a :: (distinct l).filter (fun b => decide (b ≠ a))

/-- The string with its ASCII capital letters made small; sqlite compares
identifiers without regard to ASCII case. -/
def asciiLower (key : String) : String :=
  String.mk (key.data.map
    (fun c => if 65 ≤ c.toNat ∧ c.toNat ≤ 90 then Char.ofNat (c.toNat + 32) else c))

/-- The names that a double-quoted token can denote in the statements: the
columns of `crmAccounts` and `elevateAccounts` and the names of the rowid. -/
def namesInScope : List String :=
  ["crm_id", "crm_account_number", "crm_name", "crm_email", "crm_premise_address",
   "crm_stage_name", "crm_gocardless_id", "crm_zen_user_id", "elevate_account_number",
   "elevate_mandate_reference", "elevate_customer_name", "rowid", "oid", "_rowid_"]

/-- Whether sqlite reads the key, spliced between double quotes, as a string
literal with the key as its value: the key contains no double quote (U+0022),
which would end the token, and no U+0000, which would end the statement text,
and it is not one of the names in scope, which sqlite would read as a column.
The empty key is a string literal. -/
def literalKey (key : String) : Bool :=
  !(key.data.any (fun c => c.toNat == 34 || c.toNat == 0)) &&
    !(namesInScope.contains (asciiLower key))

/-- The rows a statement with a literal key selects from the tables; text
columns compare by plain equality. The selected columns are all eight columns
of `crmAccounts`, so a result row is a `CRMAccount`. Rows come in the order of
the plan sqlite chooses with the indexes of `cm.go`: for the `OR` of Method 1
the row found by `crm_id` first, then the rows found by `crm_account_number`;
for the join the Elevate rows by mandate reference as the outer loop; within
one index, rowid order. -/
def Store.rows (s : Store) : Query → List CRMAccount
  | .crmByIdOrAccountNumber key =>
      distinct (s.crmAccounts.filter (fun c => decide (c.crm_id = key)) ++
        s.crmAccounts.filter (fun c => decide (c.crm_account_number = key)))
  | .crmByMandateReference key =>
      distinct ((s.elevateAccounts.filter
        (fun a => decide (a.elevate_mandate_reference = key))).flatMap
          (fun a => s.crmAccounts.filter
            (fun c => decide (a.elevate_account_number = c.crm_account_number))))
  | .crmByGoCardlessId key =>
      distinct (s.crmAccounts.filter (fun c => decide (c.crm_gocardless_id = key)))
  | .crmByName key =>
      distinct (s.crmAccounts.filter (fun c => decide (c.crm_name = key)))

/-- The database handle over a snapshot: a statement with a literal key
succeeds with the rows it selects from the tables; any other statement is
answered by the engine (a syntax error, or the rows of whatever predicate the
spliced text spells). -/
def Store.Query (s : Store) : DB :=
  fun q => if literalKey q.key then Except.ok (s.rows q) else s.engine q

/-! ## Matching a mandate event to a CRM account -/

/-- The eight `crm_*` variables ("fields to determine") that `row.Scan` fills. -/
structure CRMFields where
  crm_account_number : String
  crm_id : String
  crm_name : String
  crm_email : String
  crm_premise_address : String
  crm_stage_name : String
  crm_gocardless_id : String
  crm_zen_user_id : String
deriving DecidableEq

/-- The variables as declared (`var crm_id string` ...): all empty. -/
def CRMFields.empty : CRMFields :=
  ⟨"", "", "", "", "", "", "", ""⟩

/-- The assignment made by
`row.Scan(&crm_account_number, &crm_id, &crm_name, &crm_email,
&crm_premise_address, &crm_stage_name, &crm_gocardless_id, &crm_zen_user_id)`. -/
def Scan (r : CRMAccount) : CRMFields :=
  { crm_account_number := r.crm_account_number
    crm_id := r.crm_id
    crm_name := r.crm_name
    crm_email := r.crm_email
    crm_premise_address := r.crm_premise_address
    crm_stage_name := r.crm_stage_name
    crm_gocardless_id := r.crm_gocardless_id
    crm_zen_user_id := r.crm_zen_user_id }

/-- The per-event variables the four methods share: the `crm_*` variables and
the flag `found`. -/
structure Vars where
  fields : CRMFields
  found : Bool
deriving DecidableEq

/-- The variables before Method 1: `crm_*` empty, `found = false`. -/
def Vars.init : Vars :=
  ⟨CRMFields.empty, false⟩

/-- The loop `for row.Next() { row.Scan(...); if crm_id != "" ||
crm_account_number != "" { found = true; break } }`. Each row is scanned into
the shared variables before it is tested. -/
def scanRows : List CRMAccount → Vars → Vars
  | [], v => v
  | r :: rows, v =>
      let fields := Scan r
      if fields.crm_id ≠ "" ∨ fields.crm_account_number ≠ "" then
        ⟨fields, true⟩
      else
        scanRows rows ⟨fields, v.found⟩

/-- The effect on the variables of the block `row, err := db.Query(...);
if err == nil { for row.Next() ... }`. The `defer row.Close()` that follows
the block, also when `err != nil` and `row` is nil, has no effect on the
variables; it is accounted for by `rowIsNil` and `processRowsOutcome`. -/
def queryAndScan (db : DB) (q : Query) (v : Vars) : Vars :=
  match db q with
  | Except.ok rows => scanRows rows v
  | Except.error _ => v

/-- Method 1: `customers_metadata_leadID` is a CRM id or account number. -/
def method1 (db : DB) (e : MandateEvent) (v : Vars) : Vars :=
  if v.found = false then
    if e.customers_metadata_leadID ≠ "" then
      queryAndScan db (Query.crmByIdOrAccountNumber (TrimSpace e.customers_metadata_leadID)) v
    else v
  else v

/-- Method 2: `mandates_id` is the mandate reference of an Elevate account
whose account number is a CRM account number. -/
def method2 (db : DB) (e : MandateEvent) (v : Vars) : Vars :=
  if v.found = false then
    if e.mandates_id ≠ "" then
      queryAndScan db (Query.crmByMandateReference (TrimSpace e.mandates_id)) v
    else v
  else v

/-- Method 3: `customers_id` is the GoCardless id of a CRM account. -/
def method3 (db : DB) (e : MandateEvent) (v : Vars) : Vars :=
  if v.found = false then
    if e.customers_id ≠ "" then
      queryAndScan db (Query.crmByGoCardlessId (TrimSpace e.customers_id)) v
    else v
  else v

/-- Method 4: `customers_name` is the name of a CRM account. -/
def method4 (db : DB) (e : MandateEvent) (v : Vars) : Vars :=
  if v.found = false then
    if e.customers_name ≠ "" then
      queryAndScan db (Query.crmByName (TrimSpace e.customers_name)) v
    else v
  else v

/-- The four methods in sequence, from the initial variables. -/
def matchCRM (db : DB) (e : MandateEvent) : Vars :=
  method4 db e (method3 db e (method2 db e (method1 db e Vars.init)))

/-! ## The processing team -/

/-- The `switch crm_stage_name` that sets `target_team`. -/
def stageTeam (crm_stage_name : String) : String :=
  if crm_stage_name = "N/A" then "Pre-Installation"
  else if crm_stage_name = "SOLD" then "Pre-Installation"
  else if crm_stage_name = "INSTALL" then "Pre-Installation"
  else if crm_stage_name = "PROVISIONING" then "Post-Installation"
  else if crm_stage_name = "INVOICING" then "Post-Installation"
  else if crm_stage_name = "ACTIVE" then "Post-Installation"
  else if crm_stage_name = "INACTIVE" then "No action - Inactive"
  else "Pre-Installation"

/-- The value of `target_team` after the switch and the special case for
"at your request". -/
def targetTeam (crm_stage_name details_description : String) : String :=
  if Contains details_description "at your request" then "No action - at our request"
  else stageTeam crm_stage_name

/-! ## Import of mandate events -/

/-- The mapping of one csv record to the values inserted into `mandateEvents`
by `importMandateEvents`; `none` stands for the index-out-of-range failure of
`record[i]` on a record with fewer than 28 fields. -/
def mandateEventOfRecord (record : List String) (timestamp : String) : Option MandateEvent :=
  if 28 ≤ record.length then
    some
      { id := record.getD 0 ""
        created_at := record.getD 1 ""
        resource_type := record.getD 2 ""
        action := record.getD 3 ""
        details_origin := record.getD 4 ""
        details_cause := record.getD 5 ""
        details_description := record.getD 6 ""
        details_scheme := record.getD 7 ""
        details_reason_code := record.getD 8 ""
        links_previous_customer_bank_account := record.getD 9 ""
        links_new_customer_bank_account := record.getD 10 ""
        links_parent_event := record.getD 11 ""
        links_mandate := record.getD 12 ""
        mandates_id := record.getD 13 ""
        mandates_created_at := record.getD 14 ""
        mandates_reference := record.getD 15 ""
        mandates_status := record.getD 16 ""
        mandates_scheme := record.getD 17 ""
        mandates_next_possible_charge_date := record.getD 18 ""
        mandates_payments_require_approval := record.getD 19 ""
        mandates_links_customer_bank_account := record.getD 20 ""
        mandates_links_creditor := record.getD 21 ""
        customers_id := record.getD 22 ""
        customers_given_name := record.getD 23 ""
        customers_family_name := record.getD 24 ""
        customers_company_name := record.getD 25 ""
        customers_metadata_leadID := record.getD 26 ""
        customers_metadata_link := record.getD 27 ""
        customers_metadata_xero := ""
        mandates_metadata_xero := ""
        imported_at := timestamp
        customers_name := record.getD 23 "" ++ " " ++ record.getD 24 "" }
  else none

/-! ## The result row and the three result files -/

/-- The values of all variables of one loop iteration of
`processMandateEvents` when the result row is built: the columns of the
event, the `crm_*` variables, `crm_customer_name` (declared, never assigned)
and `target_team`. -/
structure ResolvedRecord where
  event : MandateEvent
  fields : CRMFields
  crm_customer_name : String
  target_team : String
deriving DecidableEq

/-- One loop iteration up to the computation of `target_team`. -/
def resolveEvent (db : DB) (e : MandateEvent) : ResolvedRecord :=
  let v := matchCRM db e
  { event := e
    fields := v.fields
    crm_customer_name := ""
    target_team := targetTeam v.fields.crm_stage_name e.details_description }

/-- The constant `headerText`. -/
def headerText : String :=
  "id,created_at,resource_type,action,details_origin,details_cause,details_description,details_scheme,details_reason_code,links_previous_customer_bank_account,links_new_customer_bank_account,links_parent_event,links_mandate,mandates_id,mandates_created_at,mandates_reference,mandates_status,mandates_scheme,mandates_next_possible_charge_date,mandates_payments_require_approval,mandates_links_customer_bank_account,mandates_links_creditor,customers_id,customers_given_name,customers_family_name,customers_company_name,customers_metadata_leadID,customers_metadata_link,customers_metadata_xero,mandates_metadata_xero,imported_at,customers_name,crm_account_number,crm_id,crm_name,crm_email,crm_premise_address,crm_stage_name,crm_customer_name,crm_gocardless_id,target_team,crm_zen_user_id\n"

/-- The string `resultRow`. -/
def resultRow (r : ResolvedRecord) : String :=
  "\"" ++ r.event.id ++ "\"," ++
  "\"" ++ r.event.created_at ++ "\"," ++
  "\"" ++ r.event.resource_type ++ "\"," ++
  "\"" ++ r.event.action ++ "\"," ++
  "\"" ++ r.event.details_origin ++ "\"," ++
  "\"" ++ r.event.details_cause ++ "\"," ++
  "\"" ++ r.event.details_description ++ "\"," ++
  "\"" ++ r.event.details_scheme ++ "\"," ++
  "\"" ++ r.event.details_reason_code ++ "\"," ++
  "\"" ++ r.event.links_previous_customer_bank_account ++ "\"," ++
  "\"" ++ r.event.links_new_customer_bank_account ++ "\"," ++
  "\"" ++ r.event.links_parent_event ++ "\"," ++
  "\"" ++ r.event.links_mandate ++ "\"," ++
  "\"" ++ r.event.mandates_id ++ "\"," ++
  "\"" ++ r.event.mandates_created_at ++ "\"," ++
  "\"" ++ r.event.mandates_reference ++ "\"," ++
  "\"" ++ r.event.mandates_status ++ "\"," ++
  "\"" ++ r.event.mandates_scheme ++ "\"," ++
  "\"" ++ r.event.mandates_next_possible_charge_date ++ "\"," ++
  "\"" ++ r.event.mandates_payments_require_approval ++ "\"," ++
  "\"" ++ r.event.mandates_links_customer_bank_account ++ "\"," ++
  "\"" ++ r.event.mandates_links_creditor ++ "\"," ++
  "\"" ++ r.event.customers_id ++ "\"," ++
  "\"" ++ r.event.customers_given_name ++ "\"," ++
  "\"" ++ r.event.customers_family_name ++ "\"," ++
  "\"" ++ r.event.customers_company_name ++ "\"," ++
  "\"" ++ r.event.customers_metadata_leadID ++ "\"," ++
  "\"" ++ r.event.customers_metadata_link ++ "\"," ++
  "\"" ++ r.event.customers_metadata_xero ++ "\"," ++
  "\"" ++ r.event.mandates_metadata_xero ++ "\"," ++
  "\"" ++ r.event.imported_at ++ "\"," ++
  "\"" ++ r.event.customers_name ++ "\"," ++
  "\"" ++ r.fields.crm_account_number ++ "\"," ++
  "\"" ++ r.fields.crm_id ++ "\"," ++
  "\"" ++ r.fields.crm_name ++ "\"," ++
  "\"" ++ r.fields.crm_email ++ "\"," ++
  "\"" ++ r.fields.crm_premise_address ++ "\"," ++
  "\"" ++ r.fields.crm_stage_name ++ "\"," ++
  "\"" ++ r.crm_customer_name ++ "\"," ++
  "\"" ++ r.fields.crm_gocardless_id ++ "\"," ++
  "\"" ++ r.target_team ++ "\"," ++
  "\"" ++ r.fields.crm_zen_user_id ++ "\"\n"

/-- The three result files, each as the list of strings written to it. -/
structure Outputs where
  targetFilePreTeam : List String
  targetFilePostTeam : List String
  targetFileOthers : List String
deriving DecidableEq

/-- The files after they are opened with `O_TRUNC` and `headerText` is
written to each. -/
def Outputs.init : Outputs :=
  ⟨[headerText], [headerText], [headerText]⟩

/-- The `if target_team == "Pre-Installation" ... else if target_team ==
"Post-Installation" ... else ...` that appends `resultRow` to one file. -/
def writeRow (out : Outputs) (r : ResolvedRecord) : Outputs :=
  if r.target_team = "Pre-Installation" then
    { out with targetFilePreTeam := out.targetFilePreTeam ++ [resultRow r] }
  else if r.target_team = "Post-Installation" then
    { out with targetFilePostTeam := out.targetFilePostTeam ++ [resultRow r] }
  else
    { out with targetFileOthers := out.targetFileOthers ++ [resultRow r] }

/-- The loop `for row.Next()` of `processMandateEvents` over the selected
events, from the state `out` of the files. -/
def processRows (db : DB) : List MandateEvent → Outputs → Outputs
  | [], out => out
  | e :: rows, out => processRows db rows (writeRow out (resolveEvent db e))

/-- The events selected by `SELECT DISTINCT ... FROM mandateEvents WHERE
imported_at = timestamp`. -/
def Store.todaysMandateEvents (s : Store) (timestamp : String) : List MandateEvent :=
  distinct (s.mandateEvents.filter (fun e => decide (e.imported_at = timestamp)))

/-- The function `processMandateEvents` on a snapshot, `timestamp` being the
current date as formatted by `time.Now().Format("2006-01-02")`: the content of
the three files when they are closed after the loop. Whether the function
then returns is given by `processMandateEventsOutcome`. -/
def processMandateEvents (s : Store) (timestamp : String) : Outputs :=
  processRows s.Query (s.todaysMandateEvents timestamp) Outputs.init


/-! ## Import of the three tables -/

/-- The values bound to `INSERT INTO elevateAccounts` for one csv record
(`record[0]`, `record[30]`, `record[2]`); `none` stands for the
index-out-of-range failure on a record with fewer than 31 fields. -/
def elevateAccountOfRecord (record : List String) : Option ElevateAccount :=
  if 31 ≤ record.length then
    some
      { elevate_account_number := record.getD 0 ""
        elevate_mandate_reference := record.getD 30 ""
        elevate_customer_name := record.getD 2 "" }
  else none

/-- The values bound to `INSERT INTO crmAccounts` for one csv record; `none`
stands for the index-out-of-range failure on a record with fewer than 11
fields. -/
def crmAccountOfRecord (record : List String) : Option CRMAccount :=
  if 11 ≤ record.length then
    some
      { crm_id := record.getD 9 ""
        crm_account_number := record.getD 0 ""
        crm_name := record.getD 6 ""
        crm_email := record.getD 7 ""
        crm_premise_address := record.getD 2 ""
        crm_stage_name := record.getD 4 ""
        crm_gocardless_id := record.getD 8 ""
        crm_zen_user_id := record.getD 10 "" }
  else none

/-- A plain `INSERT` into a table with a text primary key: when a row with
the same key is stored, the statement fails with "UNIQUE constraint failed"
and the table is unchanged (the import loop goes on with the next record);
otherwise the row is added. -/
def insertOrSkip {α : Type} (key : α → String) (table : List α) (r : α) : List α :=
  if key r ∈ table.map key then table else table ++ [r]

/-- The statement `INSERT INTO elevateAccounts(...) values(?, ?, ?)`, primary
key `elevate_account_number`. -/
def execInsertElevateAccount (table : List ElevateAccount) (r : ElevateAccount) :
    List ElevateAccount :=
  insertOrSkip ElevateAccount.elevate_account_number table r

/-- The statement `INSERT INTO mandateEvents(...) values(?, ...)`, primary key
`id`. -/
def execInsertMandateEvent (table : List MandateEvent) (r : MandateEvent) :
    List MandateEvent :=
  insertOrSkip MandateEvent.id table r

/-- The clause `DO UPDATE SET crm_name=excluded.crm_name, ...` on the stored
row `c` with the new row `r` as `excluded`: six columns are taken from `r`;
`crm_id` and `crm_account_number` are not in the list and stay. -/
def doUpdateSet (c r : CRMAccount) : CRMAccount :=
  { c with
    crm_name := r.crm_name
    crm_email := r.crm_email
    crm_premise_address := r.crm_premise_address
    crm_stage_name := r.crm_stage_name
    crm_gocardless_id := r.crm_gocardless_id
    crm_zen_user_id := r.crm_zen_user_id }

/-- The statement `INSERT INTO crmAccounts(...) values(?, ...) ON
CONFLICT(crm_id) DO UPDATE SET crm_name=excluded.crm_name,
crm_email=excluded.crm_email, crm_premise_address=excluded.crm_premise_address,
crm_stage_name=excluded.crm_stage_name,
crm_gocardless_id=excluded.crm_gocardless_id,
crm_zen_user_id=excluded.crm_zen_user_id`: the stored row with the same
`crm_id` gets the six listed columns of the new row, and without such a row
the new row is added. -/
def execUpsertCRMAccount : List CRMAccount → CRMAccount → List CRMAccount
  | [], r => [r]
  | c :: table, r =>
      if c.crm_id = r.crm_id then
        doUpdateSet c r :: table
      else c :: execUpsertCRMAccount table r

/-- The record loop of `importElevateAccounts` on the records after the
header row. -/
def importElevateAccounts (table : List ElevateAccount) :
    List (List String) → Option (List ElevateAccount)
  | [] => some table
  | record :: records =>
      match elevateAccountOfRecord record with
      | some r => importElevateAccounts (execInsertElevateAccount table r) records
      | none => none

/-- The record loop of `importCRMAccounts` on the records after the header
row. -/
def importCRMAccounts (table : List CRMAccount) :
    List (List String) → Option (List CRMAccount)
  | [] => some table
  | record :: records =>
      match crmAccountOfRecord record with
      | some r => importCRMAccounts (execUpsertCRMAccount table r) records
      | none => none

/-- The record loop of `importMandateEvents` on the records after the header
row, `timestamp` being the current date. -/
def importMandateEvents (table : List MandateEvent) (timestamp : String) :
    List (List String) → Option (List MandateEvent)
  | [] => some table
  | record :: records =>
      match mandateEventOfRecord record timestamp with
      | some r => importMandateEvents (execInsertMandateEvent table r) timestamp records
      | none => none

/-- The stored CRM row with a given `crm_id`, if any. -/
def lookupCRM (table : List CRMAccount) (crm_id : String) : Option CRMAccount :=
  table.find? (fun c => decide (c.crm_id = crm_id))

/-- The common shape of the record loops of `importElevateAccounts` and
`importMandateEvents`: map the record, insert or skip, go on. -/
def importWith {α : Type} (key : α → String) (ofRecord : List String → Option α)
    (table : List α) : List (List String) → Option (List α)
  | [] => some table
  | record :: records =>
      match ofRecord record with
      | some r => importWith key ofRecord (insertOrSkip key table r) records
      | none => none

/-- Two csv records of 31 fields with the same account number ACC9 and
different mandate references. -/
def elevateFile : List (List String) :=
  [["ACC9", "", "Nine Ltd"] ++ List.replicate 27 "" ++ ["M100"],
   ["ACC9", "", "Nine Limited"] ++ List.replicate 27 "" ++ ["M200"]]

/-- Two csv records of 28 fields with the same event id EVT1. -/
def eventFile : List (List String) :=
  ["EVT1" :: List.replicate 27 "", "EVT1" :: "2022-08-01" :: List.replicate 26 ""]

/-- A CRM row with id CRM9 and account number ACC9. -/
def crmNineOld : CRMAccount :=
  ⟨"CRM9", "ACC9", "Nine Ltd", "old@example.com", "9 Old Street", "SOLD", "CU9", "Z9"⟩

/-- A later CRM row with the same id CRM9 and all other columns changed. -/
def crmNineNew : CRMAccount :=
  ⟨"CRM9", "ACC10", "Nine Limited", "new@example.com", "9 New Street", "ACTIVE", "CU10", "Z10"⟩

/-! ## Vocabulary for the statements about the cascade -/

/-- The four methods of the cascade, in the order in which they are tried. -/
inductive Method where
  | leadID
  | mandate
  | customer
  | name
deriving DecidableEq

/-- The position of a method in the cascade. -/
def Method.rank : Method → Nat
  | .leadID => 1
  | .mandate => 2
  | .customer => 3
  | .name => 4

/-- The column of the event that a method tests against `""` and looks up. -/
def Method.trigger : Method → MandateEvent → String
  | .leadID, e => e.customers_metadata_leadID
  | .mandate, e => e.mandates_id
  | .customer, e => e.customers_id
  | .name, e => e.customers_name

/-- The statement of a method for a key. -/
def Method.select : Method → String → Query
  | .leadID, key => Query.crmByIdOrAccountNumber key
  | .mandate, key => Query.crmByMandateReference key
  | .customer, key => Query.crmByGoCardlessId key
  | .name, key => Query.crmByName key

/-- The statement a method issues for an event: its key is the trimmed
trigger column. -/
def Method.statement (m : Method) (e : MandateEvent) : Query :=
  m.select (TrimSpace (m.trigger e))

/-- The event with the trigger column of a method replaced. -/
def Method.setTrigger : Method → MandateEvent → String → MandateEvent
  | .leadID, e, v => { e with customers_metadata_leadID := v }
  | .mandate, e, v => { e with mandates_id := v }
  | .customer, e, v => { e with customers_id := v }
  | .name, e, v => { e with customers_name := v }

/-- The common shape of the four method blocks. -/
def runMethod (m : Method) (db : DB) (e : MandateEvent) (v : Vars) : Vars :=
  if v.found = false then
    if m.trigger e ≠ "" then queryAndScan db (m.statement e) v else v
  else v

/-- A row with a non-empty CRM id or a non-empty account number. -/
def qualifies (r : CRMAccount) : Bool :=
  decide (r.crm_id ≠ "") || decide (r.crm_account_number ≠ "")

/-- A string that consists of white space only (possibly empty). -/
def isBlank (w : String) : Bool :=
  w.data.all isSpace

/-! ## The deferred `row.Close()` -/

/-- Whether `db.Query(statement)` left `row` nil: it does when the statement
fails. -/
def rowIsNil (db : DB) (q : Query) : Bool :=
  match db q with
  | Except.ok _ => false
  | Except.error _ => true

/-- Whether the block of a method, entered with the variables `v`, registers
`defer row.Close()` on a nil `row`: the block is entered (`found == false`),
the trigger column is not `""`, and the statement fails. The `defer` stands
after the `if err == nil` block (cm.go 708, 735, 760, 785). -/
def defersNilClose (m : Method) (db : DB) (e : MandateEvent) (v : Vars) : Bool :=
  decide (v.found = false) && decide (m.trigger e ≠ "") && rowIsNil db (m.statement e)

/-- Whether one loop iteration registers `defer row.Close()` on a nil `row`
in one of its four blocks. -/
def eventDefersNilClose (db : DB) (e : MandateEvent) : Bool :=
  defersNilClose Method.leadID db e Vars.init ||
  defersNilClose Method.mandate db e (method1 db e Vars.init) ||
  defersNilClose Method.customer db e (method2 db e (method1 db e Vars.init)) ||
  defersNilClose Method.name db e (method3 db e (method2 db e (method1 db e Vars.init)))

/-- How `processMandateEvents` ends, with the content of the three files at
that moment. The deferred calls run when the function returns, after
`tx.Commit()` and the three `Close()` calls on the files; `Close` on a nil
`*sql.Rows` dereferences the nil pointer, a run-time panic. -/
inductive Outcome where
  | returned (files : Outputs)
  | panicked (files : Outputs)
deriving DecidableEq

/-- The loop over the selected events followed by the return of the function:
it panics when some iteration has deferred `Close` on a nil `row`. -/
def processRowsOutcome (db : DB) (events : List MandateEvent) : Outcome :=
  if events.any (eventDefersNilClose db) then
    Outcome.panicked (processRows db events Outputs.init)
  else
    Outcome.returned (processRows db events Outputs.init)

/-- How `processMandateEvents` ends on a snapshot. -/
def processMandateEventsOutcome (s : Store) (timestamp : String) : Outcome :=
  processRowsOutcome s.Query (s.todaysMandateEvents timestamp)

/-! ## Vocabulary for the statements about the result files -/

/-- What a file holds after the header: the rows written by the loop. -/
def dataRows (file : List String) : List String :=
  file.tail

/-- The record goes to the file of the pre-installation team. -/
def isPre (r : ResolvedRecord) : Bool :=
  decide (r.target_team = "Pre-Installation")

/-- The record goes to the file of the post-installation team. -/
def isPost (r : ResolvedRecord) : Bool :=
  decide (r.target_team = "Post-Installation")

/-- The record goes to the file of the others. -/
def isOther (r : ResolvedRecord) : Bool :=
  decide (r.target_team ≠ "Pre-Installation") && decide (r.target_team ≠ "Post-Installation")

/-! ## Vocabulary for the statements about the header and the rows -/

/-- The pieces of a list of characters between the occurrences of `sep`. -/
def splitChars (sep : Char) : List Char → List (List Char)
  | [] => [[]]
  | c :: l =>
      if c = sep then [] :: splitChars sep l
      else
        match splitChars sep l with
        | [] => [[c]]
        | w :: ws => (c :: w) :: ws

/-- The column names of `headerText`: the pieces between the commas (U+002C)
of the header line without its line feed (U+000A). -/
def headerColumns : List String :=
  (splitChars (Char.ofNat 44)
    (headerText.data.filter (fun c => c != Char.ofNat 10))).map String.mk

/-- The column names as they stand in `headerText`. -/
def columnNames : List String :=
  [
   "id", "created_at", "resource_type", "action", "details_origin", "details_cause",
   "details_description", "details_scheme", "details_reason_code",
   "links_previous_customer_bank_account", "links_new_customer_bank_account",
   "links_parent_event", "links_mandate", "mandates_id", "mandates_created_at",
   "mandates_reference", "mandates_status", "mandates_scheme",
   "mandates_next_possible_charge_date", "mandates_payments_require_approval",
   "mandates_links_customer_bank_account", "mandates_links_creditor", "customers_id",
   "customers_given_name", "customers_family_name", "customers_company_name",
   "customers_metadata_leadID", "customers_metadata_link", "customers_metadata_xero",
   "mandates_metadata_xero", "imported_at", "customers_name", "crm_account_number", "crm_id",
   "crm_name", "crm_email", "crm_premise_address", "crm_stage_name", "crm_customer_name",
   "crm_gocardless_id", "target_team", "crm_zen_user_id"]

/-- The values joined into `resultRow`, in the order of the concatenation. -/
def rowFields (r : ResolvedRecord) : List String :=
  [
   r.event.id, r.event.created_at, r.event.resource_type, r.event.action,
   r.event.details_origin, r.event.details_cause, r.event.details_description,
   r.event.details_scheme, r.event.details_reason_code,
   r.event.links_previous_customer_bank_account, r.event.links_new_customer_bank_account,
   r.event.links_parent_event, r.event.links_mandate, r.event.mandates_id,
   r.event.mandates_created_at, r.event.mandates_reference, r.event.mandates_status,
   r.event.mandates_scheme, r.event.mandates_next_possible_charge_date,
   r.event.mandates_payments_require_approval, r.event.mandates_links_customer_bank_account,
   r.event.mandates_links_creditor, r.event.customers_id, r.event.customers_given_name,
   r.event.customers_family_name, r.event.customers_company_name,
   r.event.customers_metadata_leadID, r.event.customers_metadata_link,
   r.event.customers_metadata_xero, r.event.mandates_metadata_xero, r.event.imported_at,
   r.event.customers_name, r.fields.crm_account_number, r.fields.crm_id, r.fields.crm_name,
   r.fields.crm_email, r.fields.crm_premise_address, r.fields.crm_stage_name,
   r.crm_customer_name, r.fields.crm_gocardless_id, r.target_team, r.fields.crm_zen_user_id]

/-- A value between two double quotes. -/
def quoted (f : String) : String :=
  "\"" ++ f ++ "\""

/-- The values, each between double quotes, separated by commas, with a line
feed at the end. -/
def renderRow (fields : List String) : String :=
  ",".intercalate (fields.map quoted) ++ "\n"

/-! ## Sample data -/

/-- The event with every column empty. -/
def MandateEvent.blank : MandateEvent :=
  { id := ""
    created_at := ""
    resource_type := ""
    action := ""
    details_origin := ""
    details_cause := ""
    details_description := ""
    details_scheme := ""
    details_reason_code := ""
    links_previous_customer_bank_account := ""
    links_new_customer_bank_account := ""
    links_parent_event := ""
    links_mandate := ""
    mandates_id := ""
    mandates_created_at := ""
    mandates_reference := ""
    mandates_status := ""
    mandates_scheme := ""
    mandates_next_possible_charge_date := ""
    mandates_payments_require_approval := ""
    mandates_links_customer_bank_account := ""
    mandates_links_creditor := ""
    customers_id := ""
    customers_given_name := ""
    customers_family_name := ""
    customers_company_name := ""
    customers_metadata_leadID := ""
    customers_metadata_link := ""
    customers_metadata_xero := ""
    mandates_metadata_xero := ""
    imported_at := ""
    customers_name := "" }

/-- A CRM account with id CRM1, account number ACC1, stage ACTIVE. -/
def crmAlice : CRMAccount :=
  ⟨"CRM1", "ACC1", "Alice Jones", "alice@example.com", "1 High Street", "ACTIVE", "CU1", "Z1"⟩

/-- A CRM account with id CRM2, account number ACC2, stage SOLD. -/
def crmBob : CRMAccount :=
  ⟨"CRM2", "ACC2", "Bob Smith", "bob@example.com", "2 Low Road", "SOLD", "CU2", "Z2"⟩

/-- An engine for the samples in which every statement has a literal key, so
that the engine is not consulted. -/
def notConsulted : DB :=
  fun _ => Except.error "not consulted"

/-- A snapshot with the two CRM accounts and no Elevate account. -/
def twoAccounts : Store :=
  ⟨[], [crmAlice, crmBob], [], notConsulted⟩

/-- An event whose lead id is the CRM id of the first account and whose
customer name is the name of the second account. -/
def leadAliceNameBob : MandateEvent :=
  { MandateEvent.blank with
    id := "EVT1"
    customers_metadata_leadID := "CRM1"
    customers_given_name := "Bob"
    customers_family_name := "Smith"
    customers_name := "Bob Smith" }

/-- A CRM row whose id and account number are both empty. -/
def crmNoKeys : CRMAccount :=
  ⟨"", "", "John Smith", "john@example.com", "3 Mill Lane", "ACTIVE", "CU3", "Z3"⟩

/-- A snapshot whose only CRM row has no keys. -/
def noKeysStore : Store :=
  ⟨[], [crmNoKeys], [], notConsulted⟩

/-- An event that carries only the customer name John Smith. -/
def johnSmithEvent : MandateEvent :=
  { MandateEvent.blank with
    id := "EVT2"
    customers_given_name := "John"
    customers_family_name := "Smith"
    customers_name := "John Smith" }

/-- A CRM account without a name. -/
def crmNameless : CRMAccount :=
  ⟨"CRM4", "ACC4", "", "info@example.com", "4 Park Row", "ACTIVE", "CU4", "Z4"⟩

/-- A snapshot whose only CRM account has no name. -/
def namelessStore : Store :=
  ⟨[], [crmNameless], [], notConsulted⟩

/-- A csv record of 28 fields: the event id EVT3 and 27 empty fields. -/
def namelessRecord : List String :=
  "EVT3" :: List.replicate 27 ""

/-- A CRM account without an account number. -/
def crmNoAccountNumber : CRMAccount :=
  ⟨"CRM5", "", "Carol White", "carol@example.com", "5 Hill View", "ACTIVE", "CU5", "Z5"⟩

/-- A snapshot whose only CRM account has no account number. -/
def noAccountNumberStore : Store :=
  ⟨[], [crmNoAccountNumber], [], notConsulted⟩

/-- An event whose lead id is one space; its customer name matches no account. -/
def spaceLeadEvent : MandateEvent :=
  { MandateEvent.blank with
    id := "EVT4"
    customers_metadata_leadID := " "
    customers_given_name := "Dan"
    customers_family_name := "Brown"
    customers_name := "Dan Brown" }

/-- A CRM account whose name contains double quotes. -/
def crmRock : CRMAccount :=
  ⟨"CRM3", "ACC3", "Dwayne \"Rock\" Johnson", "rock@example.com", "3 Stone Way", "ACTIVE",
    "CU3", "Z3"⟩

/-- An event imported on 2022-08-09 that carries only the customer name of
that account. -/
def rockEvent : MandateEvent :=
  { MandateEvent.blank with
    id := "EVT7"
    details_description := "customer cancelled mandate"
    customers_given_name := "Dwayne \"Rock\""
    customers_family_name := "Johnson"
    imported_at := "2022-08-09"
    customers_name := "Dwayne \"Rock\" Johnson" }

/-- The answer of sqlite to the Method 4 statement for that name: the text
`WHERE crm_name = "Dwayne "Rock" Johnson"` is the token `"Dwayne "` followed by
`Rock`, which no SQL statement continues with. -/
def rockEngine : DB :=
  fun q =>
    if q = Query.crmByName "Dwayne \"Rock\" Johnson" then
      Except.error "near \"Rock\": syntax error"
    else notConsulted q

/-- A snapshot with that account and that event. -/
def rockStore : Store :=
  ⟨[], [crmRock], [rockEvent], rockEngine⟩

/-- An event whose lead id is the text crm_id and whose customer name is the
name of the second sample account. -/
def columnNameEvent : MandateEvent :=
  { MandateEvent.blank with
    id := "EVT8"
    customers_metadata_leadID := "crm_id"
    customers_given_name := "Bob"
    customers_family_name := "Smith"
    customers_name := "Bob Smith" }

/-- The answer of sqlite to the Method 1 statement for the key crm_id over the
two sample accounts: `crm_id = "crm_id"` compares the column with itself, which
holds for every row. -/
def columnNameEngine : DB :=
  fun q =>
    if q = Query.crmByIdOrAccountNumber "crm_id" then Except.ok [crmAlice, crmBob]
    else notConsulted q

/-- A snapshot with the two sample accounts. -/
def columnNameStore : Store :=
  ⟨[], [crmAlice, crmBob], [], columnNameEngine⟩

/-- The database `db` with the answer to the statement `q` replaced by the
empty list of rows. -/
def withNoRows (db : DB) (q : Query) : DB :=
  fun q2 => if q2 = q then Except.ok [] else db q2

/-- An event imported on 2022-08-09. -/
def eventToday : MandateEvent :=
  { MandateEvent.blank with
    id := "EVT5"
    details_description := "customer cancelled mandate"
    imported_at := "2022-08-09" }

/-- An event imported on 2022-08-08. -/
def eventYesterday : MandateEvent :=
  { MandateEvent.blank with
    id := "EVT6"
    details_description := "customer cancelled mandate"
    imported_at := "2022-08-08" }

/-- A snapshot with the two events and the two CRM accounts. -/
def twoDays : Store :=
  ⟨[], [crmAlice, crmBob], [eventYesterday, eventToday], notConsulted⟩

/-- The event of the end-to-end example, imported on 2022-08-09. -/
def eventOne : MandateEvent :=
  { MandateEvent.blank with
    id := "EVT1"
    details_description := "customer cancelled mandate"
    mandates_id := "M100"
    imported_at := "2022-08-09" }

/-- The CRM account CRM9 with account number ACC9 in stage PROVISIONING. -/
def crmNine : CRMAccount :=
  ⟨"CRM9", "ACC9", "Nine Ltd", "nine@example.com", "9 Main Street", "PROVISIONING", "CU9", "Z9"⟩

/-- The Elevate account ACC9 with mandate reference M100. -/
def elevateNine : ElevateAccount :=
  ⟨"ACC9", "M100", "Nine Ltd"⟩

/-! # Theorems -/

/-! ## Classification -/

theorem stageTeam_ne_empty (s : String) : stageTeam s ≠ "" := by
  unfold stageTeam
  split_ifs <;> decide

theorem targetTeam_ne_empty (s d : String) : targetTeam s d ≠ "" := by
  unfold targetTeam
  split_ifs
  · decide
  · exact stageTeam_ne_empty s

theorem hasPrefix_iff (s sub : List Char) : hasPrefix s sub = true ↔ sub <+: s := by
  induction s generalizing sub with
  | nil => cases sub <;> simp [hasPrefix]
  | cons c s ih =>
    cases sub with
    | nil => simp [hasPrefix]
    | cons d sub =>
      simp only [hasPrefix, Bool.and_eq_true, beq_iff_eq, ih, List.cons_prefix_cons]
      constructor
      · rintro ⟨h1, h2⟩
        exact ⟨h1.symm, h2⟩
      · rintro ⟨h1, h2⟩
        exact ⟨h1.symm, h2⟩

theorem containsChars_iff (s sub : List Char) : containsChars s sub = true ↔ sub <:+: s := by
  induction s with
  | nil => cases sub <;> simp [containsChars, hasPrefix]
  | cons c s ih =>
    simp only [containsChars, Bool.or_eq_true, hasPrefix_iff, ih, List.infix_cons_iff]

/-- C3. For a description without "at your request": the stages PROVISIONING,
INVOICING and ACTIVE give "Post-Installation", every stage other than these
three and INACTIVE gives "Pre-Installation"; and the team is never empty,
whatever the stage and the description. -/
theorem stage_table_with_default (s d : String)
    (h : Contains d "at your request" = false) :
    ((s = "PROVISIONING" ∨ s = "INVOICING" ∨ s = "ACTIVE") →
        targetTeam s d = "Post-Installation") ∧
    ((s ≠ "PROVISIONING" ∧ s ≠ "INVOICING" ∧ s ≠ "ACTIVE" ∧ s ≠ "INACTIVE") →
        targetTeam s d = "Pre-Installation") ∧
    (∀ s2 d2 : String, targetTeam s2 d2 ≠ "") := by
  refine ⟨?_, ?_, targetTeam_ne_empty⟩
  · intro hs
    rcases hs with hs | hs | hs <;> subst hs <;> simp [targetTeam, h] <;> decide
  · rintro ⟨h1, h2, h3, h4⟩
    simp [targetTeam, h, stageTeam, h1, h2, h3, h4]

theorem stage_table_with_default_witness :
    (targetTeam "ACTIVE" "customer cancelled mandate" = "Post-Installation") ∧
    (targetTeam "active" "customer cancelled mandate" = "Pre-Installation") ∧
    (targetTeam "" "customer cancelled mandate" = "Pre-Installation") ∧
    (targetTeam "UNKNOWN_STAGE" "customer cancelled mandate" = "Pre-Installation") :=
  ⟨(stage_table_with_default "ACTIVE" "customer cancelled mandate" (by decide)).1
      (by decide),
   (stage_table_with_default "active" "customer cancelled mandate" (by decide)).2.1
      (by decide),
   (stage_table_with_default "" "customer cancelled mandate" (by decide)).2.1
      (by decide),
   (stage_table_with_default "UNKNOWN_STAGE" "customer cancelled mandate" (by decide)).2.1
      (by decide)⟩

/-- C4. A description that contains "at your request" (as a contiguous,
case-sensitive run of characters) gives one and the same team for all stages,
and that team is neither "Pre-Installation" nor "Post-Installation"; a
description that does not contain it gives the team of the stage switch. -/
theorem override_precedence (d s1 s2 : String) :
    (Contains d "at your request" = true ↔ "at your request".data <:+: d.data) ∧
    (Contains d "at your request" = true →
        targetTeam s1 d = targetTeam s2 d ∧
        targetTeam s1 d ≠ "Pre-Installation" ∧ targetTeam s1 d ≠ "Post-Installation") ∧
    (Contains d "at your request" = false → targetTeam s1 d = stageTeam s1) := by
  refine ⟨containsChars_iff _ _, ?_, ?_⟩
  · intro h
    simp only [targetTeam, h, if_true]
    exact ⟨trivial, by decide, by decide⟩
  · intro h
    simp [targetTeam, h]

theorem override_precedence_witness :
    (targetTeam "ACTIVE" "cancelled at your request" = targetTeam "SOLD" "cancelled at your request" ∧
      targetTeam "ACTIVE" "cancelled at your request" ≠ "Pre-Installation" ∧
      targetTeam "ACTIVE" "cancelled at your request" ≠ "Post-Installation") ∧
    targetTeam "ACTIVE" "cancelled At Your Request" = stageTeam "ACTIVE" :=
  ⟨(override_precedence "cancelled at your request" "ACTIVE" "SOLD").2.1 (by decide),
   (override_precedence "cancelled At Your Request" "ACTIVE" "SOLD").2.2 (by decide)⟩

/-- C10, as the spec spells the labels (with the dash U+2013): stage INACTIVE
with an empty description does not give "No action – Inactive", and stage
ACTIVE with a description containing "at your request" does not give
"No action – at our request". -/
theorem exact_team_labels_counterexample :
    ¬ (targetTeam "INACTIVE" "" = "No action – Inactive") ∧
    ¬ (targetTeam "ACTIVE" "cancelled at your request" = "No action – at our request") := by
  constructor <;> decide

/-- C10, amended: the labels are spelled with the ASCII hyphen-minus U+002D.
Stage INACTIVE with a description that does not contain "at your request"
gives "No action - Inactive"; every stage with a description that contains it
gives "No action - at our request". -/
theorem exact_team_labels (s d : String) :
    (Contains d "at your request" = false →
        targetTeam "INACTIVE" d = "No action - Inactive") ∧
    (Contains d "at your request" = true →
        targetTeam s d = "No action - at our request") := by
  constructor <;> intro h <;> simp [targetTeam, h]
  decide

theorem exact_team_labels_witness :
    targetTeam "INACTIVE" "customer cancelled mandate" = "No action - Inactive" ∧
    targetTeam "ACTIVE" "cancelled at your request" = "No action - at our request" :=
  ⟨(exact_team_labels "ACTIVE" "customer cancelled mandate").1 (by decide),
   (exact_team_labels "ACTIVE" "cancelled at your request").2 (by decide)⟩


/-! ## The cascade -/

theorem method1_eq : method1 = runMethod Method.leadID := rfl

theorem method2_eq : method2 = runMethod Method.mandate := rfl

theorem method3_eq : method3 = runMethod Method.customer := rfl

theorem method4_eq : method4 = runMethod Method.name := rfl

theorem matchCRM_eq (db : DB) (e : MandateEvent) :
    matchCRM db e =
      runMethod Method.name db e (runMethod Method.customer db e
        (runMethod Method.mandate db e (runMethod Method.leadID db e Vars.init))) := rfl

theorem scanRows_of_find_some (rows : List CRMAccount) (r : CRMAccount) (v : Vars)
    (h : rows.find? qualifies = some r) : scanRows rows v = ⟨Scan r, true⟩ := by
  induction rows generalizing v with
  | nil => simp at h
  | cons a rows ih =>
    by_cases ha : qualifies a = true
    · have hr : a = r := by simpa [List.find?, ha] using h
      subst hr
      have hq : (Scan a).crm_id ≠ "" ∨ (Scan a).crm_account_number ≠ "" := by
        simpa [qualifies, Scan] using ha
      simp only [scanRows, if_pos hq]
    · have hrest : rows.find? qualifies = some r := by simpa [List.find?, ha] using h
      have hq : ¬ ((Scan a).crm_id ≠ "" ∨ (Scan a).crm_account_number ≠ "") := by
        simpa [qualifies, Scan] using ha
      simp only [scanRows, if_neg hq]
      exact ih _ hrest

theorem scanRows_of_find_none (rows : List CRMAccount) (v : Vars)
    (h : rows.find? qualifies = none) : (scanRows rows v).found = v.found := by
  induction rows generalizing v with
  | nil => rfl
  | cons a rows ih =>
    by_cases ha : qualifies a = true
    · simp [List.find?, ha] at h
    · have hrest : rows.find? qualifies = none := by simpa [List.find?, ha] using h
      have hq : ¬ ((Scan a).crm_id ≠ "" ∨ (Scan a).crm_account_number ≠ "") := by
        simpa [qualifies, Scan] using ha
      simp only [scanRows, if_neg hq]
      exact ih _ hrest

theorem runMethod_of_found (m : Method) (db : DB) (e : MandateEvent) (v : Vars)
    (hv : v.found = true) : runMethod m db e v = v := by
  simp [runMethod, hv]

theorem runMethod_hit (m : Method) (db : DB) (e : MandateEvent) (v : Vars)
    (rows : List CRMAccount) (r : CRMAccount) (hv : v.found = false)
    (ht : m.trigger e ≠ "") (hdb : db (m.statement e) = Except.ok rows)
    (hr : rows.find? qualifies = some r) : runMethod m db e v = ⟨Scan r, true⟩ := by
  simp only [runMethod, hv, if_true, if_pos ht, queryAndScan, hdb]
  exact scanRows_of_find_some rows r v hr

theorem runMethod_miss (m : Method) (db : DB) (e : MandateEvent) (v : Vars)
    (rows : List CRMAccount) (hv : v.found = false)
    (hdb : db (m.statement e) = Except.ok rows)
    (hr : m.trigger e = "" ∨ rows.find? qualifies = none) :
    (runMethod m db e v).found = false := by
  by_cases ht : m.trigger e = ""
  · simp [runMethod, hv, ht]
  · rcases hr with hr | hr
    · exact absurd hr ht
    · simp only [runMethod, hv, if_true, if_pos ht, queryAndScan, hdb]
      rw [scanRows_of_find_none rows v hr, hv]

theorem runMethod_error (m : Method) (db : DB) (e : MandateEvent) (v : Vars) (err : String)
    (hdb : db (m.statement e) = Except.error err) : runMethod m db e v = v := by
  unfold runMethod queryAndScan
  rw [hdb]
  split_ifs <;> rfl

theorem runMethod_no_hit (m : Method) (db : DB) (e : MandateEvent) (v : Vars)
    (hv : v.found = false)
    (h : m.trigger e = "" ∨ (∃ err, db (m.statement e) = Except.error err) ∨
      ∃ rows, db (m.statement e) = Except.ok rows ∧ rows.find? qualifies = none) :
    (runMethod m db e v).found = false := by
  rcases h with h | ⟨err, h⟩ | ⟨rows, h, hr⟩
  · simp [runMethod, hv, h]
  · rw [runMethod_error m db e v err h]
    exact hv
  · exact runMethod_miss m db e v rows hv h (Or.inr hr)

/-- The cascade for any answers of the database. Let `k` be the first method
whose trigger column is not `""` and whose statement returns rows among which
one has a non-empty CRM id or account number, and let `r` be the first such
row returned (the rows before it have both keys empty); the methods before `k`
have an empty trigger column, a failing statement, or only rows with both keys
empty. Then the eight `crm_*` variables are exactly the columns of `r` and
`found` is set, whatever the database answers to the statements of the
methods after `k`. -/
theorem cascade_first_hit (db : DB) (e : MandateEvent) (k : Method)
    (rows : List CRMAccount) (r : CRMAccount)
    (hk : k.trigger e ≠ "" ∧ db (k.statement e) = Except.ok rows ∧
      rows.find? qualifies = some r)
    (hfirst : ∀ j : Method, j.rank < k.rank →
      j.trigger e = "" ∨ (∃ err, db (j.statement e) = Except.error err) ∨
        ∃ rows2, db (j.statement e) = Except.ok rows2 ∧ rows2.find? qualifies = none) :
    matchCRM db e = ⟨Scan r, true⟩ := by
  rw [matchCRM_eq]
  have h0 : Vars.init.found = false := rfl
  cases k with
  | leadID =>
    have e1 := runMethod_hit Method.leadID db e _ rows r h0 hk.1 hk.2.1 hk.2.2
    rw [e1]
    rfl
  | mandate =>
    have m1 := runMethod_no_hit Method.leadID db e _ h0 (hfirst Method.leadID (by decide))
    have e2 := runMethod_hit Method.mandate db e _ rows r m1 hk.1 hk.2.1 hk.2.2
    rw [e2]
    rfl
  | customer =>
    have m1 := runMethod_no_hit Method.leadID db e _ h0 (hfirst Method.leadID (by decide))
    have m2 := runMethod_no_hit Method.mandate db e _ m1 (hfirst Method.mandate (by decide))
    have e3 := runMethod_hit Method.customer db e _ rows r m2 hk.1 hk.2.1 hk.2.2
    rw [e3]
    rfl
  | name =>
    have m1 := runMethod_no_hit Method.leadID db e _ h0 (hfirst Method.leadID (by decide))
    have m2 := runMethod_no_hit Method.mandate db e _ m1 (hfirst Method.mandate (by decide))
    have m3 := runMethod_no_hit Method.customer db e _ m2
      (hfirst Method.customer (by decide))
    exact runMethod_hit Method.name db e _ rows r m3 hk.1 hk.2.1 hk.2.2

/-- C1, on two events whose key sqlite does not read as a string literal.
First, an event that carries only a customer name with double quotes, and a
snapshot whose CRM account CRM3 has exactly that name: Method 4 is the first
method with a non-empty trigger column and CRM3 is a row with that name and a
non-empty id, yet the statement fails and the event is left unmatched with
all `crm_*` variables empty. Second, an event with the lead id crm_id and the
customer name Bob Smith, and a snapshot with the accounts CRM1 and CRM2 (Bob
Smith): no account has the CRM id or account number crm_id and Method 4 would
find CRM2, yet Method 1 gets every row and the event is matched to CRM1. -/
theorem spliced_key_breaks_lookup :
    (Method.leadID.trigger rockEvent = "" ∧ Method.mandate.trigger rockEvent = "" ∧
      Method.customer.trigger rockEvent = "" ∧ Method.name.trigger rockEvent ≠ "" ∧
      crmRock ∈ rockStore.crmAccounts ∧
      crmRock.crm_name = TrimSpace (Method.name.trigger rockEvent) ∧
      qualifies crmRock = true ∧
      literalKey (TrimSpace (Method.name.trigger rockEvent)) = false ∧
      matchCRM rockStore.Query rockEvent = Vars.init) ∧
    (Method.leadID.trigger columnNameEvent = "crm_id" ∧
      (∀ c ∈ columnNameStore.crmAccounts,
        c.crm_id ≠ "crm_id" ∧ c.crm_account_number ≠ "crm_id") ∧
      (columnNameStore.rows (Method.name.statement columnNameEvent)).find? qualifies
        = some crmBob ∧
      literalKey (TrimSpace (Method.leadID.trigger columnNameEvent)) = false ∧
      matchCRM columnNameStore.Query columnNameEvent = ⟨Scan crmAlice, true⟩) := by
  refine ⟨⟨rfl, rfl, rfl, by decide, by decide, by decide, by decide, by decide, by decide⟩,
    ⟨rfl, by decide, by decide, by decide, by decide⟩⟩

/-- C2, on a snapshot whose only CRM row has an empty id and an empty account
number, and an event that carries only the customer name of that row: no
method finds a row with a non-empty key and `found` stays false, yet the
`crm_*` variables hold the columns of the discarded row, and the team is
"Post-Installation" from its stage ACTIVE. -/
theorem unmatched_keeps_discarded_row :
    (∀ m : Method, m.trigger johnSmithEvent = "" ∨
      (noKeysStore.rows (m.statement johnSmithEvent)).find? qualifies = none) ∧
    (matchCRM noKeysStore.Query johnSmithEvent).found = false ∧
    (matchCRM noKeysStore.Query johnSmithEvent).fields = Scan crmNoKeys ∧
    (matchCRM noKeysStore.Query johnSmithEvent).fields ≠ CRMFields.empty ∧
    (resolveEvent noKeysStore.Query johnSmithEvent).target_team = "Post-Installation" := by
  refine ⟨?_, by decide, by decide, by decide, by decide⟩
  intro m
  cases m <;> decide

/-- C6, on the record with id EVT3 and all other fields empty, and a
snapshot with one CRM account whose name is empty: the imported customer name
is one space, Method 4 runs with the key `""` and the event is matched to that
account. -/
theorem nameless_event_matched_by_name :
    (∃ e : MandateEvent, mandateEventOfRecord namelessRecord "2022-08-09" = some e ∧
      e.customers_given_name = "" ∧ e.customers_family_name = "" ∧
      e.customers_metadata_leadID = "" ∧ e.mandates_id = "" ∧ e.customers_id = "" ∧
      e.customers_name = " " ∧
      matchCRM namelessStore.Query e = ⟨Scan crmNameless, true⟩) := by
  refine ⟨_, rfl, ?_⟩
  decide

/-- C7, on an event whose lead id is one space and a snapshot with one CRM
account without account number: Method 1 runs with the key `""` and matches
that account, while the same event with the lead id `""` is not matched. -/
theorem blank_lead_id_is_looked_up :
    isBlank spaceLeadEvent.customers_metadata_leadID = true ∧
    matchCRM noAccountNumberStore.Query spaceLeadEvent = ⟨Scan crmNoAccountNumber, true⟩ ∧
    matchCRM noAccountNumberStore.Query
      { spaceLeadEvent with customers_metadata_leadID := "" } = Vars.init := by
  refine ⟨by decide, by decide, by decide⟩

theorem method_congr_db (m : Method) (db db2 : DB) (e : MandateEvent) (v : Vars)
    (h : db2 (m.statement e) = db (m.statement e)) :
    runMethod m db2 e v = runMethod m db e v := by
  simp only [runMethod, queryAndScan, h]

/-- C8. For an event whose lead id is `""`, Method 1 issues no statement: the
variables after the cascade are those of Methods 2 to 4 run from the initial
variables, and they do not depend on what the database would answer to any
Method 1 statement (in particular not on CRM rows whose id or account number
is `""`). -/
theorem skip_on_empty_lead (db : DB) (e : MandateEvent)
    (h : e.customers_metadata_leadID = "") :
    matchCRM db e = method4 db e (method3 db e (method2 db e Vars.init)) ∧
    ∀ db2 : DB,
      (∀ q : Query, (∀ key : String, q ≠ Query.crmByIdOrAccountNumber key) → db2 q = db q) →
      matchCRM db2 e = matchCRM db e := by
  have h1 : ∀ d : DB, method1 d e Vars.init = Vars.init := by
    intro d
    simp [method1, h]
  refine ⟨by simp only [matchCRM, h1], ?_⟩
  intro db2 hq
  simp only [matchCRM, h1, method2_eq, method3_eq, method4_eq]
  have q2 : db2 (Method.mandate.statement e) = db (Method.mandate.statement e) :=
    hq _ (by intro key; simp [Method.statement, Method.select])
  have q3 : db2 (Method.customer.statement e) = db (Method.customer.statement e) :=
    hq _ (by intro key; simp [Method.statement, Method.select])
  have q4 : db2 (Method.name.statement e) = db (Method.name.statement e) :=
    hq _ (by intro key; simp [Method.statement, Method.select])
  rw [method_congr_db Method.mandate db db2 e _ q2,
    method_congr_db Method.customer db db2 e _ q3,
    method_congr_db Method.name db db2 e _ q4]

theorem skip_on_empty_lead_witness :
    johnSmithEvent.customers_metadata_leadID = "" ∧
    matchCRM noAccountNumberStore.Query johnSmithEvent =
      method4 noAccountNumberStore.Query johnSmithEvent
        (method3 noAccountNumberStore.Query johnSmithEvent
          (method2 noAccountNumberStore.Query johnSmithEvent Vars.init)) ∧
    matchCRM noAccountNumberStore.Query johnSmithEvent = Vars.init :=
  ⟨rfl, (skip_on_empty_lead noAccountNumberStore.Query johnSmithEvent rfl).1, by decide⟩

/-! ## The result files -/

theorem filter_team_length (l : List ResolvedRecord) :
    (l.filter isPre).length + (l.filter isPost).length + (l.filter isOther).length
      = l.length := by
  induction l with
  | nil => rfl
  | cons r l ih =>
    by_cases h1 : r.target_team = "Pre-Installation"
    · have h2 : r.target_team ≠ "Post-Installation" := by rw [h1]; decide
      simp [List.filter_cons, isPre, isPost, isOther, h1, h2]
      simp [isPre, isPost, isOther] at ih
      omega
    · by_cases h2 : r.target_team = "Post-Installation"
      · simp [List.filter_cons, isPre, isPost, isOther, h1, h2]
        simp [isPre, isPost, isOther] at ih
        omega
      · simp [List.filter_cons, isPre, isPost, isOther, h1, h2]
        simp [isPre, isPost, isOther] at ih
        omega

theorem processRows_eq (db : DB) (events : List MandateEvent) (out : Outputs) :
    processRows db events out =
      ⟨out.targetFilePreTeam ++ ((events.map (resolveEvent db)).filter isPre).map resultRow,
       out.targetFilePostTeam ++ ((events.map (resolveEvent db)).filter isPost).map resultRow,
       out.targetFileOthers ++ ((events.map (resolveEvent db)).filter isOther).map resultRow⟩ := by
  induction events generalizing out with
  | nil => simp [processRows]
  | cons e events ih =>
    rw [processRows, ih]
    by_cases h1 : (resolveEvent db e).target_team = "Pre-Installation"
    · have h2 : (resolveEvent db e).target_team ≠ "Post-Installation" := by rw [h1]; decide
      simp [writeRow, List.filter_cons, isPre, isPost, isOther, h1, h2]
    · by_cases h2 : (resolveEvent db e).target_team = "Post-Installation"
      · simp [writeRow, List.filter_cons, isPre, isPost, isOther, h1, h2]
      · simp [writeRow, List.filter_cons, isPre, isPost, isOther, h1, h2]

/-- C5. After the loop over a batch of events, each file holds the header
followed by the rows of exactly those resolved records, in batch order, whose
`target_team` is "Pre-Installation" (pre-team file), "Post-Installation"
(post-team file), or any other value (others file); every record falls in
exactly one of the three classes, and the numbers of data rows of the three
files add up to the number of events. -/
theorem partition_complete (db : DB) (events : List MandateEvent) :
    processRows db events Outputs.init =
      ⟨headerText :: ((events.map (resolveEvent db)).filter isPre).map resultRow,
       headerText :: ((events.map (resolveEvent db)).filter isPost).map resultRow,
       headerText :: ((events.map (resolveEvent db)).filter isOther).map resultRow⟩ ∧
    (∀ r : ResolvedRecord,
      (isPre r = true ∧ isPost r = false ∧ isOther r = false) ∨
      (isPre r = false ∧ isPost r = true ∧ isOther r = false) ∨
      (isPre r = false ∧ isPost r = false ∧ isOther r = true)) ∧
    (dataRows (processRows db events Outputs.init).targetFilePreTeam).length +
      (dataRows (processRows db events Outputs.init).targetFilePostTeam).length +
      (dataRows (processRows db events Outputs.init).targetFileOthers).length
        = events.length := by
  refine ⟨by rw [processRows_eq]; rfl, ?_, ?_⟩
  · intro r
    by_cases h1 : r.target_team = "Pre-Installation"
    · have h2 : r.target_team ≠ "Post-Installation" := by rw [h1]; decide
      simp [isPre, isPost, isOther, h1, h2]
    · by_cases h2 : r.target_team = "Post-Installation"
      · simp [isPre, isPost, isOther, h1, h2]
      · simp [isPre, isPost, isOther, h1, h2]
  · rw [processRows_eq]
    simp only [Outputs.init, dataRows, List.singleton_append, List.tail_cons, List.length_map]
    rw [filter_team_length, List.length_map]

/-! ## Trimming -/

theorem dropWhile_append_of_all (p : Char → Bool) (a l : List Char)
    (h : ∀ c ∈ a, p c = true) : (a ++ l).dropWhile p = l.dropWhile p := by
  induction a with
  | nil => rfl
  | cons c a ih =>
    have hc : p c = true := h c (List.mem_cons_self c a)
    simp only [List.cons_append, List.dropWhile_cons, hc, if_true]
    exact ih (fun x hx => h x (List.mem_cons_of_mem c hx))

theorem dropWhile_append_of_ne_nil (p : Char → Bool) (l b : List Char)
    (h : l.dropWhile p ≠ []) : (l ++ b).dropWhile p = l.dropWhile p ++ b := by
  induction l with
  | nil => exact absurd rfl h
  | cons c l ih =>
    by_cases hc : p c = true
    · simp only [List.cons_append, List.dropWhile_cons, hc, if_true] at h ⊢
      exact ih h
    · simp [List.dropWhile_cons, hc]

theorem trimChars_pad (a l b : List Char) (ha : ∀ c ∈ a, isSpace c = true)
    (hb : ∀ c ∈ b, isSpace c = true) : trimChars (a ++ l ++ b) = trimChars l := by
  unfold trimChars
  rw [List.append_assoc, dropWhile_append_of_all isSpace a (l ++ b) ha]
  by_cases h : l.dropWhile isSpace = []
  · have hl : ∀ c ∈ l, isSpace c = true := by
      intro c hc
      exact (List.dropWhile_eq_nil_iff.mp h) c hc
    have hlb : (l ++ b).dropWhile isSpace = [] := by
      rw [dropWhile_append_of_all isSpace l b hl]
      exact List.dropWhile_eq_nil_iff.mpr hb
    rw [hlb, h]
  · rw [dropWhile_append_of_ne_nil isSpace l b h, List.reverse_append,
      dropWhile_append_of_all isSpace b.reverse _ (fun c hc => hb c (List.mem_reverse.mp hc))]

theorem trimChars_decompose (l : List Char) :
    ∃ a b : List Char, (∀ c ∈ a, isSpace c = true) ∧ (∀ c ∈ b, isSpace c = true) ∧
      l = a ++ trimChars l ++ b := by
  refine ⟨l.takeWhile isSpace, ((l.dropWhile isSpace).reverse.takeWhile isSpace).reverse,
    fun c hc => List.mem_takeWhile_imp hc,
    fun c hc => List.mem_takeWhile_imp (List.mem_reverse.mp hc), ?_⟩
  unfold trimChars
  rw [List.append_assoc, ← List.reverse_append, List.takeWhile_append_dropWhile,
    List.reverse_reverse, List.takeWhile_append_dropWhile]

theorem trimChars_idem (l : List Char) : trimChars (trimChars l) = trimChars l := by
  obtain ⟨a, b, ha, hb, hl⟩ := trimChars_decompose l
  have h := trimChars_pad a (trimChars l) b ha hb
  rw [← hl] at h
  exact h.symm

theorem TrimSpace_pad (w1 v w2 : String) (h1 : isBlank w1 = true) (h2 : isBlank w2 = true) :
    TrimSpace (w1 ++ v ++ w2) = TrimSpace v := by
  unfold TrimSpace
  simp only [String.data_append]
  rw [trimChars_pad w1.data v.data w2.data (by simpa [isBlank] using h1)
    (by simpa [isBlank] using h2)]

theorem TrimSpace_idem (v : String) : TrimSpace (TrimSpace v) = TrimSpace v := by
  unfold TrimSpace
  simp only [trimChars_idem]

theorem ne_empty_of_TrimSpace_ne_empty (v : String) (h : TrimSpace v ≠ "") : v ≠ "" := by
  intro hv
  subst hv
  exact h rfl

theorem runMethod_congr_event (m : Method) (db : DB) (e e2 : MandateEvent) (v : Vars)
    (h1 : m.trigger e = "" ↔ m.trigger e2 = "")
    (h2 : TrimSpace (m.trigger e) = TrimSpace (m.trigger e2)) :
    runMethod m db e v = runMethod m db e2 v := by
  simp only [runMethod, Method.statement, h2, ne_eq, h1]

theorem matchCRM_congr_event (db : DB) (e e2 : MandateEvent)
    (h : ∀ m : Method, (m.trigger e = "" ↔ m.trigger e2 = "") ∧
      TrimSpace (m.trigger e) = TrimSpace (m.trigger e2)) :
    matchCRM db e = matchCRM db e2 := by
  rw [matchCRM_eq, matchCRM_eq,
    runMethod_congr_event Method.leadID db e e2 _ (h _).1 (h _).2,
    runMethod_congr_event Method.mandate db e e2 _ (h _).1 (h _).2,
    runMethod_congr_event Method.customer db e e2 _ (h _).1 (h _).2,
    runMethod_congr_event Method.name db e e2 _ (h _).1 (h _).2]

theorem trigger_setTrigger (f m : Method) (e : MandateEvent) (x : String) :
    m.trigger (f.setTrigger e x) = if m = f then x else m.trigger e := by
  cases f <;> cases m <;> rfl

theorem matchCRM_setTrigger (db : DB) (e : MandateEvent) (f : Method) (x : String)
    (hx : x ≠ "") (hf : f.trigger e ≠ "")
    (ht : TrimSpace x = TrimSpace (f.trigger e)) :
    matchCRM db (f.setTrigger e x) = matchCRM db e := by
  apply matchCRM_congr_event
  intro m
  rw [trigger_setTrigger]
  by_cases hm : m = f
  · subst hm
    simp [hx, hf, ht]
  · simp [hm]

/-- C9. Let the trimmed value of a trigger column (lead id, mandate id,
customer id, customer name) of an event be non-empty. Then the event with
white space added before and after that column, the event itself, and the
event with that column trimmed all leave the cascade with the same `crm_*`
variables and the same `found` flag. -/
theorem trim_invariance (db : DB) (e : MandateEvent) (f : Method) (w1 w2 : String)
    (h1 : isBlank w1 = true) (h2 : isBlank w2 = true)
    (hne : TrimSpace (f.trigger e) ≠ "") :
    matchCRM db (f.setTrigger e (w1 ++ f.trigger e ++ w2)) = matchCRM db e ∧
    matchCRM db (f.setTrigger e (TrimSpace (f.trigger e))) = matchCRM db e := by
  have hf : f.trigger e ≠ "" := ne_empty_of_TrimSpace_ne_empty _ hne
  have hp : TrimSpace (w1 ++ f.trigger e ++ w2) = TrimSpace (f.trigger e) :=
    TrimSpace_pad w1 _ w2 h1 h2
  refine ⟨?_, ?_⟩
  · exact matchCRM_setTrigger db e f _
      (ne_empty_of_TrimSpace_ne_empty _ (by rw [hp]; exact hne)) hf hp
  · exact matchCRM_setTrigger db e f _ hne hf (TrimSpace_idem _)

theorem trim_invariance_witness :
    TrimSpace (Method.leadID.trigger leadAliceNameBob) ≠ "" ∧
    matchCRM twoAccounts.Query
      (Method.leadID.setTrigger leadAliceNameBob
        (" \t" ++ Method.leadID.trigger leadAliceNameBob ++ "  ")) =
      matchCRM twoAccounts.Query leadAliceNameBob ∧
    matchCRM twoAccounts.Query leadAliceNameBob = ⟨Scan crmAlice, true⟩ :=
  ⟨by decide,
   (trim_invariance twoAccounts.Query leadAliceNameBob Method.leadID " \t" "  "
      (by decide) (by decide) (by decide)).1,
   by decide⟩

/-! ## Import: insert or skip -/

theorem importElevateAccounts_eq (table : List ElevateAccount) (records : List (List String)) :
    importElevateAccounts table records =
      importWith ElevateAccount.elevate_account_number elevateAccountOfRecord table records := by
  induction records generalizing table with
  | nil => rfl
  | cons record records ih =>
    unfold importElevateAccounts importWith
    cases elevateAccountOfRecord record with
    | none => rfl
    | some r => exact ih _

theorem importMandateEvents_eq (table : List MandateEvent) (timestamp : String)
    (records : List (List String)) :
    importMandateEvents table timestamp records =
      importWith MandateEvent.id (fun record => mandateEventOfRecord record timestamp)
        table records := by
  induction records generalizing table with
  | nil => rfl
  | cons record records ih =>
    unfold importMandateEvents importWith
    cases mandateEventOfRecord record timestamp with
    | none => rfl
    | some r => exact ih _

theorem insertOrSkip_of_mem {α : Type} (key : α → String) (table : List α) (r : α)
    (h : key r ∈ table.map key) : insertOrSkip key table r = table := by
  simp only [insertOrSkip, if_pos h]

theorem keys_insertOrSkip {α : Type} (key : α → String) (table : List α) (r : α)
    (k : String) :
    k ∈ (insertOrSkip key table r).map key ↔ k ∈ table.map key ∨ k = key r := by
  by_cases h : key r ∈ table.map key
  · rw [insertOrSkip_of_mem key table r h]
    constructor
    · exact Or.inl
    · rintro (hk | hk)
      · exact hk
      · rw [hk]; exact h
  · simp only [insertOrSkip, if_neg h, List.map_append, List.map_cons, List.map_nil,
      List.mem_append, List.mem_singleton]

theorem nodup_insertOrSkip {α : Type} (key : α → String) (table : List α) (r : α)
    (h : (table.map key).Nodup) : ((insertOrSkip key table r).map key).Nodup := by
  by_cases hk : key r ∈ table.map key
  · rw [insertOrSkip_of_mem key table r hk]
    exact h
  · simp only [insertOrSkip, if_neg hk, List.map_append, List.map_cons, List.map_nil]
    rw [List.nodup_append]
    refine ⟨h, List.nodup_singleton _, ?_⟩
    intro a ha hb
    rw [List.mem_singleton] at hb
    exact hk (hb ▸ ha)

theorem importWith_keys {α : Type} (key : α → String) (ofRecord : List String → Option α)
    (table table1 : List α) (records : List (List String))
    (h : importWith key ofRecord table records = some table1) :
    (∀ k ∈ table.map key, k ∈ table1.map key) ∧
    (∀ record ∈ records, ∃ r, ofRecord record = some r ∧ key r ∈ table1.map key) ∧
    ((table.map key).Nodup → (table1.map key).Nodup) := by
  induction records generalizing table with
  | nil =>
    simp only [importWith, Option.some.injEq] at h
    subst h
    exact ⟨fun k hk => hk, fun record hr => absurd hr (List.not_mem_nil record), id⟩
  | cons record records ih =>
    cases hr : ofRecord record with
    | none => simp [importWith, hr] at h
    | some r =>
      simp only [importWith, hr] at h
      obtain ⟨h1, h2, h3⟩ := ih _ h
      refine ⟨?_, ?_, ?_⟩
      · intro k hk
        exact h1 k ((keys_insertOrSkip key table r k).mpr (Or.inl hk))
      · intro record2 hmem
        rcases List.mem_cons.mp hmem with heq | hmem
        · subst heq
          exact ⟨r, hr, h1 _ ((keys_insertOrSkip key table r _).mpr (Or.inr rfl))⟩
        · exact h2 record2 hmem
      · intro hnd
        exact h3 (nodup_insertOrSkip key table r hnd)

theorem importWith_all_present {α : Type} (key : α → String)
    (ofRecord : List String → Option α) (table : List α) (records : List (List String))
    (h : ∀ record ∈ records, ∃ r, ofRecord record = some r ∧ key r ∈ table.map key) :
    importWith key ofRecord table records = some table := by
  induction records with
  | nil => rfl
  | cons record records ih =>
    obtain ⟨r, hr, hk⟩ := h record (List.mem_cons_self record records)
    simp only [importWith, hr, insertOrSkip_of_mem key table r hk]
    exact ih (fun record2 hmem => h record2 (List.mem_cons_of_mem record hmem))

theorem mandateEventOfRecord_id (record : List String) (t1 t2 : String) (r : MandateEvent)
    (h : mandateEventOfRecord record t1 = some r) :
    ∃ r2, mandateEventOfRecord record t2 = some r2 ∧ r2.id = r.id := by
  unfold mandateEventOfRecord at h ⊢
  by_cases hl : 28 ≤ record.length
  · simp only [if_pos hl, Option.some.injEq] at h ⊢
    subst h
    exact ⟨_, rfl, rfl⟩
  · simp [if_neg hl] at h

/-- C12. For the Elevate table (key: account number) and the mandate-event
table (key: event id): an insert of a row whose key is stored leaves the table
as it is and the loop goes on with the remaining records; after the import of
a file every record of the file has its key in the table, keys that were
unique stay unique, and a second import of the same file (for events also
on another day) gives the same table. -/
theorem insert_or_skip_idempotent :
    (∀ (table : List ElevateAccount) (r : ElevateAccount),
      r.elevate_account_number ∈ table.map ElevateAccount.elevate_account_number →
        execInsertElevateAccount table r = table) ∧
    (∀ (table : List MandateEvent) (r : MandateEvent),
      r.id ∈ table.map MandateEvent.id → execInsertMandateEvent table r = table) ∧
    (∀ (table : List ElevateAccount) (record : List String) (records : List (List String))
        (r : ElevateAccount),
      elevateAccountOfRecord record = some r →
      r.elevate_account_number ∈ table.map ElevateAccount.elevate_account_number →
        importElevateAccounts table (record :: records) = importElevateAccounts table records) ∧
    (∀ (table : List MandateEvent) (timestamp : String) (record : List String)
        (records : List (List String)) (r : MandateEvent),
      mandateEventOfRecord record timestamp = some r →
      r.id ∈ table.map MandateEvent.id →
        importMandateEvents table timestamp (record :: records) =
          importMandateEvents table timestamp records) ∧
    (∀ (table table1 : List ElevateAccount) (records : List (List String)),
      importElevateAccounts table records = some table1 →
        importElevateAccounts table1 records = some table1 ∧
        (∀ record ∈ records, ∃ r, elevateAccountOfRecord record = some r ∧
          r.elevate_account_number ∈ table1.map ElevateAccount.elevate_account_number) ∧
        ((table.map ElevateAccount.elevate_account_number).Nodup →
          (table1.map ElevateAccount.elevate_account_number).Nodup)) ∧
    (∀ (table table1 : List MandateEvent) (timestamp timestamp2 : String)
        (records : List (List String)),
      importMandateEvents table timestamp records = some table1 →
        importMandateEvents table1 timestamp2 records = some table1 ∧
        (∀ record ∈ records, ∃ r, mandateEventOfRecord record timestamp = some r ∧
          r.id ∈ table1.map MandateEvent.id) ∧
        ((table.map MandateEvent.id).Nodup → (table1.map MandateEvent.id).Nodup)) := by
  refine ⟨?_, ?_, ?_, ?_, ?_, ?_⟩
  · intro table r h
    exact insertOrSkip_of_mem _ table r h
  · intro table r h
    exact insertOrSkip_of_mem _ table r h
  · intro table record records r hr hk
    simp only [importElevateAccounts, hr, execInsertElevateAccount,
      insertOrSkip_of_mem _ table r hk]
  · intro table timestamp record records r hr hk
    simp only [importMandateEvents, hr, execInsertMandateEvent,
      insertOrSkip_of_mem _ table r hk]
  · intro table table1 records h
    rw [importElevateAccounts_eq] at h
    obtain ⟨_, h2, h3⟩ := importWith_keys _ _ table table1 records h
    refine ⟨?_, h2, h3⟩
    rw [importElevateAccounts_eq]
    exact importWith_all_present _ _ table1 records h2
  · intro table table1 timestamp timestamp2 records h
    rw [importMandateEvents_eq] at h
    obtain ⟨_, h2, h3⟩ := importWith_keys _ _ table table1 records h
    refine ⟨?_, h2, h3⟩
    rw [importMandateEvents_eq]
    apply importWith_all_present
    intro record hmem
    obtain ⟨r, hr, hk⟩ := h2 record hmem
    obtain ⟨r2, hr2, hid⟩ := mandateEventOfRecord_id record timestamp timestamp2 r hr
    exact ⟨r2, hr2, by rw [hid]; exact hk⟩

theorem insert_or_skip_idempotent_witness :
    importElevateAccounts [] elevateFile = some [⟨"ACC9", "M100", "Nine Ltd"⟩] ∧
    importElevateAccounts [⟨"ACC9", "M100", "Nine Ltd"⟩] elevateFile
      = some [⟨"ACC9", "M100", "Nine Ltd"⟩] ∧
    (∃ table1, importMandateEvents [] "2022-08-09" eventFile = some table1 ∧
      importMandateEvents table1 "2022-08-10" eventFile = some table1 ∧
      table1.map MandateEvent.id = ["EVT1"]) :=
  ⟨by decide,
   (insert_or_skip_idempotent.2.2.2.2.1 [] [⟨"ACC9", "M100", "Nine Ltd"⟩] elevateFile
      (by decide)).1,
   ⟨_, rfl, (insert_or_skip_idempotent.2.2.2.2.2 [] _ "2022-08-09" "2022-08-10" eventFile
      rfl).1, by decide⟩⟩

/-! ## Import: the CRM upsert -/

theorem lookupCRM_upsert (table : List CRMAccount) (r : CRMAccount) (id : String) :
    lookupCRM (execUpsertCRMAccount table r) id =
      if r.crm_id = id then
        some (match lookupCRM table id with
          | some c => doUpdateSet c r
          | none => r)
      else lookupCRM table id := by
  induction table with
  | nil =>
    by_cases h : r.crm_id = id
    · simp [execUpsertCRMAccount, lookupCRM, h]
    · simp [execUpsertCRMAccount, lookupCRM, h]
  | cons c table ih =>
    unfold lookupCRM at ih ⊢
    by_cases hc : c.crm_id = r.crm_id
    · by_cases h : r.crm_id = id
      · have hci : c.crm_id = id := hc.trans h
        simp [execUpsertCRMAccount, hc, h, doUpdateSet, List.find?_cons, hci]
      · have hci : ¬ c.crm_id = id := fun hh => h (hc.symm.trans hh)
        simp [execUpsertCRMAccount, hc, h, doUpdateSet, List.find?_cons, hci]
    · by_cases hci : c.crm_id = id
      · subst hci
        have h : ¬ r.crm_id = c.crm_id := fun hh => hc hh.symm
        simp [execUpsertCRMAccount, hc, h, List.find?_cons]
      · simp only [execUpsertCRMAccount, if_neg hc, List.find?_cons, hci, decide_False]
        exact ih

theorem ids_upsert (table : List CRMAccount) (r : CRMAccount) :
    (execUpsertCRMAccount table r).map CRMAccount.crm_id =
      if r.crm_id ∈ table.map CRMAccount.crm_id then table.map CRMAccount.crm_id
      else table.map CRMAccount.crm_id ++ [r.crm_id] := by
  induction table with
  | nil => simp [execUpsertCRMAccount]
  | cons c table ih =>
    by_cases hc : c.crm_id = r.crm_id
    · simp [execUpsertCRMAccount, hc, doUpdateSet]
    · have hc2 : ¬ r.crm_id = c.crm_id := fun hh => hc hh.symm
      simp only [execUpsertCRMAccount, if_neg hc, List.map_cons, ih, List.mem_cons, hc2,
        false_or]
      split_ifs <;> simp

theorem nodup_upsert (table : List CRMAccount) (r : CRMAccount)
    (h : (table.map CRMAccount.crm_id).Nodup) :
    ((execUpsertCRMAccount table r).map CRMAccount.crm_id).Nodup := by
  rw [ids_upsert]
  split_ifs with hk
  · exact h
  · rw [List.nodup_append]
    refine ⟨h, List.nodup_singleton _, ?_⟩
    intro a ha hb
    rw [List.mem_singleton] at hb
    exact hk (hb ▸ ha)

theorem nodup_upsert_all (rows table : List CRMAccount)
    (h : (table.map CRMAccount.crm_id).Nodup) :
    ((rows.foldl execUpsertCRMAccount table).map CRMAccount.crm_id).Nodup := by
  induction rows generalizing table with
  | nil => exact h
  | cons r rows ih => exact ih _ (nodup_upsert table r h)

theorem lookupCRM_upsert_all_of_absent (rows table : List CRMAccount) (id : String)
    (h : ∀ x ∈ rows, x.crm_id ≠ id) :
    lookupCRM (rows.foldl execUpsertCRMAccount table) id = lookupCRM table id := by
  induction rows generalizing table with
  | nil => rfl
  | cons r rows ih =>
    rw [List.foldl_cons, ih _ (fun x hx => h x (List.mem_cons_of_mem r hx)),
      lookupCRM_upsert, if_neg (h r (List.mem_cons_self r rows))]

theorem account_number_upsert (table : List CRMAccount) (r : CRMAccount) (id : String) :
    (lookupCRM (execUpsertCRMAccount table r) id).map CRMAccount.crm_account_number =
      ((table ++ [r]).find? (fun x => decide (x.crm_id = id))).map
        CRMAccount.crm_account_number := by
  rw [lookupCRM_upsert, List.find?_append]
  unfold lookupCRM
  by_cases h : r.crm_id = id
  · cases hl : table.find? (fun x => decide (x.crm_id = id)) with
    | none => simp [h, List.find?_cons]
    | some c => simp [h, doUpdateSet]
  · cases hl : table.find? (fun x => decide (x.crm_id = id)) with
    | none => simp [h, List.find?_cons]
    | some c => simp [h]

theorem account_number_upsert_all (rows table : List CRMAccount) (id : String) :
    (lookupCRM (rows.foldl execUpsertCRMAccount table) id).map CRMAccount.crm_account_number =
      ((table ++ rows).find? (fun x => decide (x.crm_id = id))).map
        CRMAccount.crm_account_number := by
  induction rows generalizing table with
  | nil => simp [lookupCRM]
  | cons r rows ih =>
    rw [List.foldl_cons, ih]
    have h := account_number_upsert table r id
    unfold lookupCRM at h
    have e : table ++ r :: rows = (table ++ [r]) ++ rows := by simp
    have e1 : (execUpsertCRMAccount table r ++ rows).find? (fun x => decide (x.crm_id = id)) =
        ((execUpsertCRMAccount table r).find? (fun x => decide (x.crm_id = id))).or
          (rows.find? (fun x => decide (x.crm_id = id))) := List.find?_append
    have e2 : ((table ++ [r]) ++ rows).find? (fun x => decide (x.crm_id = id)) =
        ((table ++ [r]).find? (fun x => decide (x.crm_id = id))).or
          (rows.find? (fun x => decide (x.crm_id = id))) := List.find?_append
    rw [e, e1, e2, Option.map_or', Option.map_or', h]

/-- C11, as stated: after the import of two rows with the same CRM id and
different account numbers into the empty table, the stored row does not have
the account number of the last row. -/
theorem crm_upsert_counterexample :
    ¬ (∀ c, lookupCRM ([crmNineOld, crmNineNew].foldl execUpsertCRMAccount []) "CRM9" = some c →
        c.crm_account_number = crmNineNew.crm_account_number) := by
  decide

/-- C11, amended. From a table with unique CRM ids, after any sequence of rows
is imported the CRM ids are still unique; for the last imported row with a
given CRM id, the stored row with that id has its name, email, premise
address, stage, GoCardless id and Zendesk user id; and the account number of
the stored row is that of the first row (stored before, or else imported) with
that CRM id. -/
theorem crm_upsert_latest_values (table rows : List CRMAccount)
    (h : (table.map CRMAccount.crm_id).Nodup) :
    ((rows.foldl execUpsertCRMAccount table).map CRMAccount.crm_id).Nodup ∧
    (∀ (rows1 rows2 : List CRMAccount) (r : CRMAccount),
      rows = rows1 ++ r :: rows2 → (∀ x ∈ rows2, x.crm_id ≠ r.crm_id) →
      ∃ c, lookupCRM (rows.foldl execUpsertCRMAccount table) r.crm_id = some c ∧
        c.crm_id = r.crm_id ∧ c.crm_name = r.crm_name ∧ c.crm_email = r.crm_email ∧
        c.crm_premise_address = r.crm_premise_address ∧
        c.crm_stage_name = r.crm_stage_name ∧
        c.crm_gocardless_id = r.crm_gocardless_id ∧
        c.crm_zen_user_id = r.crm_zen_user_id) ∧
    (∀ (id : String) (f : CRMAccount),
      (table ++ rows).find? (fun x => decide (x.crm_id = id)) = some f →
      ∃ c, lookupCRM (rows.foldl execUpsertCRMAccount table) id = some c ∧
        c.crm_account_number = f.crm_account_number) := by
  refine ⟨nodup_upsert_all rows table h, ?_, ?_⟩
  · intro rows1 rows2 r hrows hlast
    subst hrows
    rw [List.foldl_append, List.foldl_cons,
      lookupCRM_upsert_all_of_absent rows2 _ r.crm_id hlast, lookupCRM_upsert, if_pos rfl]
    cases hl : lookupCRM (rows1.foldl execUpsertCRMAccount table) r.crm_id with
    | none => exact ⟨r, rfl, rfl, rfl, rfl, rfl, rfl, rfl, rfl⟩
    | some c =>
      refine ⟨doUpdateSet c r, rfl, ?_, rfl, rfl, rfl, rfl, rfl, rfl⟩
      have hc := List.find?_some hl
      simpa [doUpdateSet] using hc
  · intro id f hf
    have hacc := account_number_upsert_all rows table id
    rw [hf] at hacc
    cases hl : lookupCRM (rows.foldl execUpsertCRMAccount table) id with
    | none => simp [hl] at hacc
    | some c =>
      refine ⟨c, rfl, ?_⟩
      simpa [hl] using hacc

theorem crm_upsert_latest_values_witness :
    ([crmNineOld, crmNineNew, crmNineNew].foldl execUpsertCRMAccount []).map CRMAccount.crm_id
      = ["CRM9"] ∧
    lookupCRM ([crmNineOld, crmNineNew, crmNineNew].foldl execUpsertCRMAccount []) "CRM9" =
      some ⟨"CRM9", "ACC9", "Nine Limited", "new@example.com", "9 New Street", "ACTIVE",
        "CU10", "Z10"⟩ ∧
    (([crmNineOld, crmNineNew, crmNineNew].foldl execUpsertCRMAccount []).map
      CRMAccount.crm_id).Nodup :=
  ⟨by decide, by decide,
   (crm_upsert_latest_values [] [crmNineOld, crmNineNew, crmNineNew] List.nodup_nil).1⟩

/-! ## The header and the rows -/

theorem headerColumns_eq : headerColumns = columnNames := by decide

theorem quote_comma : "\"," = "\"" ++ "," := by decide

theorem quote_line_feed : "\"\n" = "\"" ++ "\n" := by decide

set_option maxRecDepth 100000 in
theorem headerText_eq : headerText = ",".intercalate columnNames ++ "\n" := by decide

set_option maxRecDepth 100000 in
theorem resultRow_eq (r : ResolvedRecord) : resultRow r = renderRow (rowFields r) := by
  simp only [resultRow, renderRow, rowFields, List.map, quoted, String.intercalate,
    String.intercalate.go, quote_comma, quote_line_feed, String.append_assoc]

/-- C15, as stated: the header does not have 41 column names, and the row of
a resolved record does not have 41 values. -/
theorem output_columns_counterexample :
    ¬ (headerColumns.length = 41) ∧
    ¬ ((rowFields (resolveEvent twoAccounts.Query leadAliceNameBob)).length = 41) := by
  constructor <;> decide

/-- C15, amended: the header has exactly 42 comma-separated column names, and
the row written for a resolved record is the rendering of exactly 42 values. -/
theorem output_columns :
    headerColumns.length = 42 ∧
    ∀ r : ResolvedRecord, resultRow r = renderRow (rowFields r) ∧ (rowFields r).length = 42 := by
  refine ⟨by decide, fun r => ⟨resultRow_eq r, rfl⟩⟩

/-- C16. The row of a resolved record is its values, each between double
quotes, separated by commas and ended by a line feed; there are as many values
as the header has column names; under the 32 event columns (id to
customers_name) stand the columns of the event as stored, and under the
remaining columns the `crm_*` variables and `target_team`, all in header
order. The record built for an event carries that event unchanged. -/
theorem row_rendering (r : ResolvedRecord) :
    resultRow r = ",".intercalate ((rowFields r).map (fun f => "\"" ++ f ++ "\"")) ++ "\n" ∧
    headerText = ",".intercalate headerColumns ++ "\n" ∧
    (rowFields r).length = headerColumns.length ∧
    headerColumns.zip (rowFields r) =
      [
       ("id", r.event.id), ("created_at", r.event.created_at),
       ("resource_type", r.event.resource_type), ("action", r.event.action),
       ("details_origin", r.event.details_origin), ("details_cause", r.event.details_cause),
       ("details_description", r.event.details_description),
       ("details_scheme", r.event.details_scheme),
       ("details_reason_code", r.event.details_reason_code),
       ("links_previous_customer_bank_account", r.event.links_previous_customer_bank_account),
       ("links_new_customer_bank_account", r.event.links_new_customer_bank_account),
       ("links_parent_event", r.event.links_parent_event),
       ("links_mandate", r.event.links_mandate), ("mandates_id", r.event.mandates_id),
       ("mandates_created_at", r.event.mandates_created_at),
       ("mandates_reference", r.event.mandates_reference),
       ("mandates_status", r.event.mandates_status),
       ("mandates_scheme", r.event.mandates_scheme),
       ("mandates_next_possible_charge_date", r.event.mandates_next_possible_charge_date),
       ("mandates_payments_require_approval", r.event.mandates_payments_require_approval),
       ("mandates_links_customer_bank_account", r.event.mandates_links_customer_bank_account),
       ("mandates_links_creditor", r.event.mandates_links_creditor),
       ("customers_id", r.event.customers_id),
       ("customers_given_name", r.event.customers_given_name),
       ("customers_family_name", r.event.customers_family_name),
       ("customers_company_name", r.event.customers_company_name),
       ("customers_metadata_leadID", r.event.customers_metadata_leadID),
       ("customers_metadata_link", r.event.customers_metadata_link),
       ("customers_metadata_xero", r.event.customers_metadata_xero),
       ("mandates_metadata_xero", r.event.mandates_metadata_xero),
       ("imported_at", r.event.imported_at), ("customers_name", r.event.customers_name),
       ("crm_account_number", r.fields.crm_account_number), ("crm_id", r.fields.crm_id),
       ("crm_name", r.fields.crm_name), ("crm_email", r.fields.crm_email),
       ("crm_premise_address", r.fields.crm_premise_address),
       ("crm_stage_name", r.fields.crm_stage_name), ("crm_customer_name", r.crm_customer_name),
       ("crm_gocardless_id", r.fields.crm_gocardless_id), ("target_team", r.target_team),
       ("crm_zen_user_id", r.fields.crm_zen_user_id)] ∧
    (∀ (db : DB) (e : MandateEvent), (resolveEvent db e).event = e ∧
      (resolveEvent db e).fields = (matchCRM db e).fields ∧
      (resolveEvent db e).target_team =
        targetTeam (matchCRM db e).fields.crm_stage_name e.details_description) := by
  refine ⟨resultRow_eq r, ?_, ?_, ?_, fun db e => ⟨rfl, rfl, rfl⟩⟩
  · rw [headerColumns_eq]
    exact headerText_eq
  · rw [headerColumns_eq]
    rfl
  · rw [headerColumns_eq]
    rfl

/-- C17. For every batch, each of the three files starts with `headerText`,
and what follows are the rows of the records routed to that file, in batch
order; for the empty batch each file holds the header alone. -/
theorem headers_always_present (db : DB) (events : List MandateEvent) :
    (processRows db events Outputs.init).targetFilePreTeam.head? = some headerText ∧
    (processRows db events Outputs.init).targetFilePostTeam.head? = some headerText ∧
    (processRows db events Outputs.init).targetFileOthers.head? = some headerText ∧
    dataRows (processRows db events Outputs.init).targetFilePreTeam =
      ((events.map (resolveEvent db)).filter isPre).map resultRow ∧
    dataRows (processRows db events Outputs.init).targetFilePostTeam =
      ((events.map (resolveEvent db)).filter isPost).map resultRow ∧
    dataRows (processRows db events Outputs.init).targetFileOthers =
      ((events.map (resolveEvent db)).filter isOther).map resultRow ∧
    processRows db [] Outputs.init = ⟨[headerText], [headerText], [headerText]⟩ ∧
    (∀ (s : Store) (timestamp : String),
      (processMandateEvents s timestamp).targetFilePreTeam.head? = some headerText ∧
      (processMandateEvents s timestamp).targetFilePostTeam.head? = some headerText ∧
      (processMandateEvents s timestamp).targetFileOthers.head? = some headerText) := by
  refine ⟨?_, ?_, ?_, ?_, ?_, ?_, rfl, ?_⟩
  · rw [processRows_eq]; rfl
  · rw [processRows_eq]; rfl
  · rw [processRows_eq]; rfl
  · rw [processRows_eq]; rfl
  · rw [processRows_eq]; rfl
  · rw [processRows_eq]; rfl
  · intro s timestamp
    unfold processMandateEvents
    rw [processRows_eq]
    exact ⟨rfl, rfl, rfl⟩

/-! ## Routing by stage and description -/

theorem targetTeam_eq_pre_iff (s d : String) :
    targetTeam s d = "Pre-Installation" ↔
      Contains d "at your request" = false ∧ s ≠ "PROVISIONING" ∧ s ≠ "INVOICING" ∧
        s ≠ "ACTIVE" ∧ s ≠ "INACTIVE" := by
  unfold targetTeam stageTeam
  by_cases hc : Contains d "at your request" = true
  · simp only [hc, if_true]
    constructor
    · intro h; exact absurd h (by decide)
    · intro h; exact absurd h.1 (by simp)
  · simp only [hc]
    split_ifs <;> simp_all

theorem targetTeam_eq_post_iff (s d : String) :
    targetTeam s d = "Post-Installation" ↔
      Contains d "at your request" = false ∧
        (s = "PROVISIONING" ∨ s = "INVOICING" ∨ s = "ACTIVE") := by
  unfold targetTeam stageTeam
  by_cases hc : Contains d "at your request" = true
  · simp only [hc, if_true]
    constructor
    · intro h; exact absurd h (by decide)
    · intro h; exact absurd h.1 (by simp)
  · simp only [hc]
    split_ifs <;> simp_all

/-- C19. The row of a processed event goes to the others file exactly when
the description contains "at your request" or the stage left by the cascade
is INACTIVE; to the post-team file exactly when the description lacks the
phrase and the stage is PROVISIONING, INVOICING or ACTIVE; and to the pre-team
file in every remaining case. -/
theorem catch_all_routing (db : DB) (e : MandateEvent) (out : Outputs) :
    writeRow out (resolveEvent db e) =
      (if Contains e.details_description "at your request" = true ∨
          (matchCRM db e).fields.crm_stage_name = "INACTIVE" then
        { out with
          targetFileOthers := out.targetFileOthers ++ [resultRow (resolveEvent db e)] }
      else if (matchCRM db e).fields.crm_stage_name = "PROVISIONING" ∨
          (matchCRM db e).fields.crm_stage_name = "INVOICING" ∨
          (matchCRM db e).fields.crm_stage_name = "ACTIVE" then
        { out with
          targetFilePostTeam := out.targetFilePostTeam ++ [resultRow (resolveEvent db e)] }
      else
        { out with
          targetFilePreTeam := out.targetFilePreTeam ++ [resultRow (resolveEvent db e)] }) ∧
    (isOther (resolveEvent db e) = true ↔
      (Contains e.details_description "at your request" = true ∨
        (matchCRM db e).fields.crm_stage_name = "INACTIVE")) ∧
    (isPost (resolveEvent db e) = true ↔
      (Contains e.details_description "at your request" = false ∧
        ((matchCRM db e).fields.crm_stage_name = "PROVISIONING" ∨
          (matchCRM db e).fields.crm_stage_name = "INVOICING" ∨
          (matchCRM db e).fields.crm_stage_name = "ACTIVE"))) ∧
    (isPre (resolveEvent db e) = true ↔
      (Contains e.details_description "at your request" = false ∧
        (matchCRM db e).fields.crm_stage_name ≠ "INACTIVE" ∧
        (matchCRM db e).fields.crm_stage_name ≠ "PROVISIONING" ∧
        (matchCRM db e).fields.crm_stage_name ≠ "INVOICING" ∧
        (matchCRM db e).fields.crm_stage_name ≠ "ACTIVE")) := by
  have ht : (resolveEvent db e).target_team =
      targetTeam (matchCRM db e).fields.crm_stage_name e.details_description := rfl
  have hpre := targetTeam_eq_pre_iff (matchCRM db e).fields.crm_stage_name e.details_description
  have hpost := targetTeam_eq_post_iff (matchCRM db e).fields.crm_stage_name e.details_description
  refine ⟨?_, ?_, ?_, ?_⟩
  · unfold writeRow
    rw [ht]
    by_cases hc : Contains e.details_description "at your request" = true
    · have h1 : ¬ targetTeam (matchCRM db e).fields.crm_stage_name e.details_description
          = "Pre-Installation" := fun h => by simp [hpre.mp h] at hc
      have h2 : ¬ targetTeam (matchCRM db e).fields.crm_stage_name e.details_description
          = "Post-Installation" := fun h => by simp [(hpost.mp h).1] at hc
      rw [if_neg h1, if_neg h2, if_pos (Or.inl hc)]
    · have hc2 : Contains e.details_description "at your request" = false := by simpa using hc
      by_cases h1 : targetTeam (matchCRM db e).fields.crm_stage_name e.details_description
          = "Pre-Installation"
      · obtain ⟨_, hp, hi, ha, hn⟩ := hpre.mp h1
        rw [if_pos h1, if_neg (not_or.mpr ⟨hc, hn⟩),
          if_neg (not_or.mpr ⟨hp, not_or.mpr ⟨hi, ha⟩⟩)]
      · by_cases h2 : targetTeam (matchCRM db e).fields.crm_stage_name e.details_description
            = "Post-Installation"
        · have h3 := (hpost.mp h2).2
          have hn : ¬ (matchCRM db e).fields.crm_stage_name = "INACTIVE" := by
            intro hh
            rw [hh] at h3
            revert h3
            decide
          rw [if_neg h1, if_pos h2, if_neg (not_or.mpr ⟨hc, hn⟩), if_pos h3]
        · have h3 : ¬ ((matchCRM db e).fields.crm_stage_name = "PROVISIONING" ∨
              (matchCRM db e).fields.crm_stage_name = "INVOICING" ∨
              (matchCRM db e).fields.crm_stage_name = "ACTIVE") :=
            fun hh => h2 (hpost.mpr ⟨hc2, hh⟩)
          have hn : (matchCRM db e).fields.crm_stage_name = "INACTIVE" := by
            by_contra hn
            exact h1 (hpre.mpr ⟨hc2, fun hh => h3 (Or.inl hh), fun hh => h3 (Or.inr (Or.inl hh)),
              fun hh => h3 (Or.inr (Or.inr hh)), hn⟩)
          rw [if_neg h1, if_neg h2, if_pos (Or.inr hn)]
  · simp only [isOther, Bool.and_eq_true, decide_eq_true_eq, ht, ne_eq, hpre, hpost]
    by_cases hc : Contains e.details_description "at your request" = true
    · simp [hc]
    · have hc2 : Contains e.details_description "at your request" = false := by simpa using hc
      simp only [hc2, true_and, Bool.false_eq_true, false_or]
      constructor
      · rintro ⟨h1, h2⟩
        by_contra hn
        exact h1 ⟨fun hh => h2 (Or.inl hh), fun hh => h2 (Or.inr (Or.inl hh)),
          fun hh => h2 (Or.inr (Or.inr hh)), hn⟩
      · intro hn
        rw [hn]
        decide
  · simp only [isPost, decide_eq_true_eq, ht, hpost]
  · simp only [isPre, decide_eq_true_eq, ht, hpre]
    tauto

/-! ## Failing statements -/

theorem queryAndScan_withNoRows (db : DB) (q : Query) (err : String)
    (h : db q = Except.error err) (q2 : Query) (v : Vars) :
    queryAndScan (withNoRows db q) q2 v = queryAndScan db q2 v := by
  unfold queryAndScan withNoRows
  by_cases hq : q2 = q
  · subst hq
    simp [h, scanRows]
  · simp [hq]

theorem runMethod_withNoRows (db : DB) (q : Query) (err : String)
    (h : db q = Except.error err) (m : Method) (e : MandateEvent) (v : Vars) :
    runMethod m (withNoRows db q) e v = runMethod m db e v := by
  simp only [runMethod, queryAndScan_withNoRows db q err h]

theorem resolveEvent_withNoRows (db : DB) (q : Query) (err : String)
    (h : db q = Except.error err) (e : MandateEvent) :
    resolveEvent (withNoRows db q) e = resolveEvent db e := by
  simp only [resolveEvent, matchCRM_eq, runMethod_withNoRows db q err h]

/-- A failing statement and the variables: when the database answers a
statement with an error, the method that issued it leaves the variables as
they are and the cascade goes on with the next method; the variables after the
cascade, the team, the row and the three files are those obtained when the
statement returns no rows instead. -/
theorem query_error_is_no_match (db : DB) (q : Query) (err : String)
    (h : db q = Except.error err) :
    (∀ (m : Method) (e : MandateEvent) (v : Vars),
      m.statement e = q → runMethod m db e v = v) ∧
    (∀ e : MandateEvent, matchCRM db e = matchCRM (withNoRows db q) e) ∧
    (∀ e : MandateEvent, resolveEvent db e = resolveEvent (withNoRows db q) e) ∧
    (∀ (events : List MandateEvent) (out : Outputs),
      processRows db events out = processRows (withNoRows db q) events out) := by
  refine ⟨?_, ?_, ?_, ?_⟩
  · intro m e v hq
    unfold runMethod queryAndScan
    rw [hq, h]
    split_ifs <;> rfl
  · intro e
    simp only [matchCRM_eq, runMethod_withNoRows db q err h]
  · intro e
    exact (resolveEvent_withNoRows db q err h e).symm
  · intro events out
    rw [processRows_eq, processRows_eq]
    have hf : resolveEvent (withNoRows db q) = resolveEvent db :=
      funext (resolveEvent_withNoRows db q err h)
    rw [hf]

theorem processRowsOutcome_panicked_iff (db : DB) (events : List MandateEvent) :
    processRowsOutcome db events = Outcome.panicked (processRows db events Outputs.init) ↔
      ∃ e ∈ events, eventDefersNilClose db e = true := by
  unfold processRowsOutcome
  by_cases h : events.any (eventDefersNilClose db) = true
  · simp only [h, if_true, true_iff]
    simpa [List.any_eq_true] using h
  · simp only [h, Bool.false_eq_true, if_false, reduceCtorEq, false_iff]
    simpa [List.any_eq_true] using h

set_option maxRecDepth 100000 in
/-- C18, on an event that carries only a customer name with double quotes,
imported on the run date, and a snapshot with one CRM account: the Method 4
statement fails; Method 4 leaves the variables as they are, the record is the
one obtained when the statement returns no rows, and its row is written to the
pre-team file. But the block has deferred `row.Close()` on the nil `row`, so
`processMandateEvents` panics when it returns, whereas with no rows for the
same statement it returns, the files being the same. -/
theorem failed_query_panics_on_return :
    rockStore.Query (Method.name.statement rockEvent) =
      Except.error "near \"Rock\": syntax error" ∧
    method4 rockStore.Query rockEvent Vars.init = Vars.init ∧
    resolveEvent rockStore.Query rockEvent =
      resolveEvent (withNoRows rockStore.Query (Method.name.statement rockEvent)) rockEvent ∧
    processMandateEvents rockStore "2022-08-09" =
      ⟨[headerText, resultRow (resolveEvent rockStore.Query rockEvent)], [headerText],
        [headerText]⟩ ∧
    eventDefersNilClose rockStore.Query rockEvent = true ∧
    processMandateEventsOutcome rockStore "2022-08-09" =
      Outcome.panicked (processMandateEvents rockStore "2022-08-09") ∧
    processRowsOutcome (withNoRows rockStore.Query (Method.name.statement rockEvent))
        (rockStore.todaysMandateEvents "2022-08-09") =
      Outcome.returned (processMandateEvents rockStore "2022-08-09") := by
  refine ⟨rfl, by decide, by decide, by decide, by decide, by decide, by decide⟩

/-! ## The batch of the day -/

theorem distinct_of_nodup {α : Type} [DecidableEq α] (l : List α) (h : l.Nodup) :
    distinct l = l := by
  induction l with
  | nil => rfl
  | cons a l ih =>
    rw [List.nodup_cons] at h
    simp only [distinct, ih h.2]
    congr 1
    rw [List.filter_eq_self]
    intro b hb
    simp only [ne_eq, decide_eq_true_eq]
    intro hba
    exact h.1 (hba ▸ hb)

theorem filter_team_perm (l : List ResolvedRecord) :
    (l.filter isPre ++ l.filter isPost ++ l.filter isOther).Perm l := by
  induction l with
  | nil => exact List.Perm.refl _
  | cons r l ih =>
    by_cases h1 : r.target_team = "Pre-Installation"
    · have h2 : r.target_team ≠ "Post-Installation" := by rw [h1]; decide
      have e1 : isPre r = true := by simp [isPre, h1]
      have e2 : isPost r = false := by simp [isPost, h2]
      have e3 : isOther r = false := by simp [isOther, h1]
      simp only [List.filter_cons, e1, e2, e3, if_true, List.cons_append]
      exact List.Perm.cons r ih
    · by_cases h2 : r.target_team = "Post-Installation"
      · have e1 : isPre r = false := by simp [isPre, h1]
        have e2 : isPost r = true := by simp [isPost, h2]
        have e3 : isOther r = false := by simp [isOther, h2]
        simp only [List.filter_cons, e1, e2, e3, if_true]
        rw [List.append_assoc, List.cons_append]
        refine List.Perm.trans List.perm_middle (List.Perm.cons r ?_)
        rw [← List.append_assoc]
        exact ih
      · have e1 : isPre r = false := by simp [isPre, h1]
        have e2 : isPost r = false := by simp [isPost, h2]
        have e3 : isOther r = true := by simp [isOther, h1, h2]
        simp only [List.filter_cons, e1, e2, e3, if_true]
        exact List.Perm.trans List.perm_middle (List.Perm.cons r ih)

/-- C14. In a table with unique event ids, the events processed on a run
date are exactly the stored events whose `imported_at` equals that date, each
once; the data rows of the three files together are, up to order, the rows of
exactly these events, one row for each, so that an event with another
`imported_at` has no row in any file. -/
theorem date_scoped_batch (s : Store) (timestamp : String)
    (h : (s.mandateEvents.map MandateEvent.id).Nodup) :
    s.todaysMandateEvents timestamp =
      s.mandateEvents.filter (fun e => decide (e.imported_at = timestamp)) ∧
    (∀ e : MandateEvent, e ∈ s.todaysMandateEvents timestamp ↔
      (e ∈ s.mandateEvents ∧ e.imported_at = timestamp)) ∧
    (s.todaysMandateEvents timestamp).Nodup ∧
    (dataRows (processMandateEvents s timestamp).targetFilePreTeam ++
      dataRows (processMandateEvents s timestamp).targetFilePostTeam ++
      dataRows (processMandateEvents s timestamp).targetFileOthers).Perm
        ((s.mandateEvents.filter (fun e => decide (e.imported_at = timestamp))).map
          (fun e => resultRow (resolveEvent s.Query e))) := by
  have hnd : s.mandateEvents.Nodup := List.Nodup.of_map _ h
  have hf : (s.mandateEvents.filter (fun e => decide (e.imported_at = timestamp))).Nodup :=
    List.Nodup.filter _ hnd
  have ht : s.todaysMandateEvents timestamp =
      s.mandateEvents.filter (fun e => decide (e.imported_at = timestamp)) :=
    distinct_of_nodup _ hf
  refine ⟨ht, ?_, ?_, ?_⟩
  · intro e
    rw [ht, List.mem_filter, decide_eq_true_eq]
  · rw [ht]
    exact hf
  · unfold processMandateEvents
    rw [processRows_eq, ht]
    simp only [Outputs.init, dataRows, List.singleton_append, List.tail_cons]
    rw [← List.map_append, ← List.map_append]
    have hp := filter_team_perm
      ((s.mandateEvents.filter (fun e => decide (e.imported_at = timestamp))).map
        (resolveEvent s.Query))
    have hm := List.Perm.map resultRow hp
    rw [List.map_map] at hm
    exact hm

set_option maxRecDepth 100000 in
theorem date_scoped_batch_witness :
    twoDays.todaysMandateEvents "2022-08-09" = [eventToday] ∧
    processMandateEvents twoDays "2022-08-09" =
      ⟨[headerText, resultRow (resolveEvent twoDays.Query eventToday)], [headerText],
        [headerText]⟩ :=
  ⟨(date_scoped_batch twoDays "2022-08-09" (by decide)).1.trans (by decide), by decide⟩

/-! ## The end-to-end example -/

/-- C13. For an event with id EVT1, lead id `""`, mandate id M100 and the
description "customer cancelled mandate", imported on the run date, against a
snapshot with the Elevate account ACC9 with mandate reference M100 and the CRM
account CRM9 with account number ACC9 and stage PROVISIONING (and any engine): Method 1 is
skipped, Method 2 finds CRM9, the `crm_*` variables are the columns of CRM9,
the team is "Post-Installation", and the row is written to the post-team file
while the other two files hold their header only. -/
theorem end_to_end_example (e : MandateEvent) (a : ElevateAccount) (c : CRMAccount)
    (timestamp : String) (engine : DB)
    (he : e.id = "EVT1" ∧ e.customers_metadata_leadID = "" ∧ e.mandates_id = "M100" ∧
      e.details_description = "customer cancelled mandate" ∧ e.imported_at = timestamp)
    (ha : a.elevate_account_number = "ACC9" ∧ a.elevate_mandate_reference = "M100")
    (hc : c.crm_id = "CRM9" ∧ c.crm_account_number = "ACC9" ∧
      c.crm_stage_name = "PROVISIONING") :
    method1 (Store.Query ⟨[a], [c], [e], engine⟩) e Vars.init = Vars.init ∧
    method2 (Store.Query ⟨[a], [c], [e], engine⟩) e Vars.init = ⟨Scan c, true⟩ ∧
    matchCRM (Store.Query ⟨[a], [c], [e], engine⟩) e = ⟨Scan c, true⟩ ∧
    (resolveEvent (Store.Query ⟨[a], [c], [e], engine⟩) e).target_team = "Post-Installation" ∧
    processMandateEvents ⟨[a], [c], [e], engine⟩ timestamp =
      ⟨[headerText],
       [headerText, resultRow (resolveEvent (Store.Query ⟨[a], [c], [e], engine⟩) e)],
       [headerText]⟩ := by
  obtain ⟨_, hlead, hmid, hdesc, himp⟩ := he
  obtain ⟨hacc, href⟩ := ha
  obtain ⟨hid, hcacc, hstage⟩ := hc
  have htrim : TrimSpace "M100" = "M100" := by decide
  have h1 : method1 (Store.Query ⟨[a], [c], [e], engine⟩) e Vars.init = Vars.init := by
    simp [method1, hlead]
  have hrows : Store.rows ⟨[a], [c], [e], engine⟩ (Method.mandate.statement e) = [c] := by
    simp [Method.statement, Method.select, Method.trigger, hmid, htrim, Store.rows, href,
      hacc, hcacc, distinct]
  have hfind : ([c] : List CRMAccount).find? qualifies = some c := by
    simp [List.find?, qualifies, hid]
  have h2 : method2 (Store.Query ⟨[a], [c], [e], engine⟩) e Vars.init = ⟨Scan c, true⟩ := by
    rw [method2_eq]
    refine runMethod_hit Method.mandate _ e Vars.init [c] c rfl ?_ ?_ hfind
    · simp [Method.trigger, hmid]
    · have hlit : literalKey (Method.mandate.statement e).key = true := by
        simp only [Method.statement, Method.select, Method.trigger, hmid, htrim, Query.key]
        decide
      simp only [Store.Query, hlit, if_true, hrows]
  have hm : matchCRM (Store.Query ⟨[a], [c], [e], engine⟩) e = ⟨Scan c, true⟩ := by
    unfold matchCRM
    rw [h1, h2, method3_eq, method4_eq, runMethod_of_found _ _ _ _ rfl,
      runMethod_of_found _ _ _ _ rfl]
  have ht : (resolveEvent (Store.Query ⟨[a], [c], [e], engine⟩) e).target_team
      = "Post-Installation" := by
    simp only [resolveEvent, hm, Scan, hstage, hdesc]
    decide
  refine ⟨h1, h2, hm, ht, ?_⟩
  have htoday : Store.todaysMandateEvents ⟨[a], [c], [e], engine⟩ timestamp = [e] := by
    simp [Store.todaysMandateEvents, himp, distinct]
  have hne : ¬ (resolveEvent (Store.Query ⟨[a], [c], [e], engine⟩) e).target_team
      = "Pre-Installation" := by
    rw [ht]; decide
  unfold processMandateEvents
  rw [htoday]
  simp only [processRows, writeRow, if_neg hne, if_pos ht, Outputs.init,
    List.singleton_append]

theorem end_to_end_example_witness :
    matchCRM (Store.Query ⟨[elevateNine], [crmNine], [eventOne], notConsulted⟩) eventOne
      = ⟨Scan crmNine, true⟩ ∧
    (resolveEvent (Store.Query ⟨[elevateNine], [crmNine], [eventOne], notConsulted⟩) eventOne).target_team
      = "Post-Installation" ∧
    processMandateEvents ⟨[elevateNine], [crmNine], [eventOne], notConsulted⟩ "2022-08-09" =
      ⟨[headerText],
       [headerText,
        resultRow (resolveEvent (Store.Query ⟨[elevateNine], [crmNine], [eventOne], notConsulted⟩) eventOne)],
       [headerText]⟩ :=
  (end_to_end_example eventOne elevateNine crmNine "2022-08-09" notConsulted
    ⟨rfl, rfl, rfl, rfl, rfl⟩ ⟨rfl, rfl⟩ ⟨rfl, rfl, rfl⟩).2.2

end CancelledMandates
